import Mathlib

/-!
Verification development for the `rust-ecosystem` repository (v2 simulation
engine and Monte Carlo harness).  `f32` values are modelled as exact
rationals; the floating-point exponential is abstracted as a function
parameter `E : ℚ → ℚ` (instantiated at `Real.exp` over `ℝ` for the claims
about curve shapes).
-/

namespace EcosystemV2

/-! ## Errors (src/src/v2/types.rs, src/src/v2/errors.rs) -/

inductive ValidationError where
  | phOutOfRange (value : ℚ)
  | temperatureOutOfRange (value : ℚ)
  | humidityOutOfRange (value : ℚ)
  | negativeValue (param : String)
  | zeroOrNegativePopulation (pop : String)
  deriving DecidableEq

inductive EcosystemError where
  | populationCollapse (population : String)
  | environmentalFailure (parameter : String) (value : ℚ)
  | configurationError (message : String)
  | validationError (e : ValidationError)
  | simulationError (message : String)
  deriving DecidableEq

abbrev EcosystemResult (α : Type) := Except EcosystemError α

/-- `?` on a `Result<_, ValidationError>` inside a function returning
`EcosystemResult` goes through `From<ValidationError> for EcosystemError`. -/
def liftV {α : Type} (r : Except ValidationError α) : EcosystemResult α :=
  r.mapError EcosystemError.validationError

/-! ## Validated quantity domain (src/src/v2/types.rs) -/

/-- Shared body of the `impl_positive_value!` macro and of `Biomass::new` /
`Oxygen::new`: reject strictly negative values. -/
def nonnegNew (name : String) (value : ℚ) : Except ValidationError ℚ :=
  if value < 0 then .error (.negativeValue name) else .ok value

def Biomass.new (value : ℚ) : Except ValidationError ℚ := nonnegNew "biomass" value

def Biomass.is_collapsed (value : ℚ) : Bool := value ≤ 0.01

def Population.new (value : ℚ) : Except ValidationError ℚ :=
  if value ≤ 0 then .error (.zeroOrNegativePopulation "population") else .ok value

def Population.is_collapsed (value : ℚ) : Bool := value ≤ 0.01

def Ph.new (value : ℚ) : Except ValidationError ℚ :=
  if 0 ≤ value ∧ value ≤ 14 then .ok value else .error (.phOutOfRange value)

def Temperature.new (value : ℚ) : Except ValidationError ℚ :=
  if -50 ≤ value ∧ value ≤ 60 then .ok value else .error (.temperatureOutOfRange value)

def Humidity.new (value : ℚ) : Except ValidationError ℚ :=
  if 0 ≤ value ∧ value ≤ 100 then .ok value else .error (.humidityOutOfRange value)

def Oxygen.new (value : ℚ) : Except ValidationError ℚ := nonnegNew "oxygen" value

def CarbonDioxide.new (value : ℚ) : Except ValidationError ℚ := nonnegNew "carbon_dioxide" value

def Nitrogen.new (value : ℚ) : Except ValidationError ℚ := nonnegNew "nitrogen" value

def WaterVolume.new (value : ℚ) : Except ValidationError ℚ := nonnegNew "water_volume" value

def Moisture.new (value : ℚ) : Except ValidationError ℚ := nonnegNew "moisture" value

def Aeration.new (value : ℚ) : Except ValidationError ℚ := nonnegNew "aeration" value

def Detritus.new (value : ℚ) : Except ValidationError ℚ := nonnegNew "detritus" value

/-! ## Ecosystem state (src/src/v2/state.rs) -/

structure EcosystemStateV2 where
  plant_biomass : ℚ
  microbe_pop : ℚ
  worm_pop : ℚ
  shrimp_pop : ℚ
  soil_nitrogen : ℚ
  soil_ph : ℚ
  soil_moisture : ℚ
  soil_aeration : ℚ
  detritus : ℚ
  water_liters : ℚ
  water_o2 : ℚ
  air_n2 : ℚ
  air_o2 : ℚ
  air_co2 : ℚ
  temperature : ℚ
  humidity : ℚ
  rocks : ℕ
  deriving DecidableEq

/-- `EcosystemStateV2::light_level` is hardcoded to a medium light level. -/
def EcosystemStateV2.light_level (_s : EcosystemStateV2) : ℚ := 4.0

/-- `CollapseDetection::is_collapsed` for `EcosystemStateV2`. -/
def EcosystemStateV2.is_collapsed (s : EcosystemStateV2) : Bool :=
  Biomass.is_collapsed s.plant_biomass ||
  Population.is_collapsed s.microbe_pop ||
  Population.is_collapsed s.worm_pop ||
  Population.is_collapsed s.shrimp_pop

/-- Every quantity in the state is inside its declared domain
(the validity predicates of the constructors in src/src/v2/types.rs). -/
structure ValidState (s : EcosystemStateV2) : Prop where
  plant_biomass_nonneg : 0 ≤ s.plant_biomass
  microbe_pop_pos : 0 < s.microbe_pop
  worm_pop_pos : 0 < s.worm_pop
  shrimp_pop_pos : 0 < s.shrimp_pop
  soil_nitrogen_nonneg : 0 ≤ s.soil_nitrogen
  soil_ph_mem : 0 ≤ s.soil_ph ∧ s.soil_ph ≤ 14
  soil_moisture_nonneg : 0 ≤ s.soil_moisture
  soil_aeration_nonneg : 0 ≤ s.soil_aeration
  detritus_nonneg : 0 ≤ s.detritus
  water_liters_nonneg : 0 ≤ s.water_liters
  water_o2_nonneg : 0 ≤ s.water_o2
  air_n2_nonneg : 0 ≤ s.air_n2
  air_o2_nonneg : 0 ≤ s.air_o2
  air_co2_nonneg : 0 ≤ s.air_co2
  temperature_mem : -50 ≤ s.temperature ∧ s.temperature ≤ 60
  humidity_mem : 0 ≤ s.humidity ∧ s.humidity ≤ 100

/-! ## Environmental response functions (src/src/v2/environmental.rs)

Polymorphic over a linear ordered field so that the same definitions can be
run on `ℚ` (inside the executable simulation) and stated over `ℝ` with
`Real.exp` (for the curve-shape claims).  `E` stands for `f32::exp`. -/

variable {α : Type*} [LinearOrderedField α]

def temperature_efficiency (E : α → α) (temp : α) : α :=
  E (-((temp - 24) ^ 2) / 32)

def humidity_efficiency (humidity : α) : α := min (humidity / 100) 1

def light_efficiency (light_level : α) : α := min (light_level / 6) 1

def nutrient_efficiency (nitrogen : α) : α := min (nitrogen / 2) 1

def competition_factor (biomass : α) : α := max (1 - biomass / 100) 0

def moisture_efficiency (moisture : α) : α := min (moisture / 2) 1

def ph_efficiency (E : α → α) (ph : α) : α := E (-(ph - 7) ^ 2 / 8)

def oxygen_efficiency (oxygen : α) : α := min (oxygen / 21) 1

def detritus_availability (detritus : α) : α := min (detritus / 2) 1

def toxicity_factor (_toxicity : α) : α := 0

def water_oxygen_efficiency (water_oxygen : α) : α := min (water_oxygen / 21) 1

def ph_penalty_factor (ph : α) : α :=
  if ph < 13 / 2 then (13 / 2 - ph) / (13 / 2) else 0

def oxygen_penalty_factor (oxygen : α) : α :=
  if oxygen < 5 then (5 - oxygen) / 5 else 0

def water_oxygen_penalty_factor (water_oxygen : α) : α :=
  if water_oxygen < 5 then (5 - water_oxygen) / 5 else 0

/-! ## Simulation parameters (src/src/v2/config/parameters.rs) -/

structure PhotosynthesisParams where
  base_rate : ℚ
  co2_efficiency : ℚ
  light_dependency : ℚ
  humidity_dependency : ℚ
  deriving DecidableEq

structure RespirationParams where
  base_rate : ℚ
  co2_production : ℚ
  deriving DecidableEq

structure MicrobialParams where
  nitrogen_fixation_rate : ℚ
  growth_rate : ℚ
  death_rate : ℚ
  respiration_rate : ℚ
  -- source field name: respiration_co2_ratio
  respiration_co2_mult : ℚ
  deriving DecidableEq

structure WormParams where
  aeration_rate : ℚ
  decomposition_rate : ℚ
  growth_rate : ℚ
  death_rate : ℚ
  deriving DecidableEq

structure ShrimpParams where
  detritus_consumption_rate : ℚ
  waste_production_rate : ℚ
  growth_rate : ℚ
  death_rate : ℚ
  deriving DecidableEq

structure EnvironmentalParams where
  ph_acidification_rate : ℚ
  rock_buffer_rate : ℚ
  water_buffer_rate : ℚ
  plant_nitrogen_uptake : ℚ
  deriving DecidableEq

structure SimulationParameters where
  photosynthesis : PhotosynthesisParams
  respiration : RespirationParams
  microbial : MicrobialParams
  worm : WormParams
  shrimp : ShrimpParams
  environmental : EnvironmentalParams
  deriving DecidableEq

/-- `impl Default for SimulationParameters`. -/
def SimulationParameters.default : SimulationParameters where
  photosynthesis :=
    { base_rate := 0.10, co2_efficiency := 1.5
      light_dependency := 1.0, humidity_dependency := 1.0 }
  respiration := { base_rate := 0.002, co2_production := 1.0 }
  microbial :=
    { nitrogen_fixation_rate := 0.008, growth_rate := 0.01, death_rate := 0.005
      respiration_rate := 0.001, respiration_co2_mult := 1.0 }
  worm :=
    { aeration_rate := 0.01, decomposition_rate := 0.01
      growth_rate := 0.01, death_rate := 0.005 }
  shrimp :=
    { detritus_consumption_rate := 0.01, waste_production_rate := 0.005
      growth_rate := 0.01, death_rate := 0.005 }
  environmental :=
    { ph_acidification_rate := 0.001, rock_buffer_rate := 0.002
      water_buffer_rate := 0.001, plant_nitrogen_uptake := 0.002 }

/-- `SimulationParameters::validate`. -/
def SimulationParameters.validate (p : SimulationParameters) : EcosystemResult Unit :=
  if p.photosynthesis.base_rate ≤ 0 then
    .error (.configurationError "Photosynthesis base rate must be positive")
  else if p.respiration.base_rate ≤ 0 then
    .error (.configurationError "Respiration base rate must be positive")
  else if p.microbial.growth_rate ≤ 0 then
    .error (.configurationError "Microbial growth rate must be positive")
  else if p.photosynthesis.co2_efficiency > 5 then
    .error (.configurationError "CO2 efficiency too high")
  else
    .ok ()

/-! ## Difficulty (src/src/v2/config/difficulty.rs) -/

structure DifficultyScaling where
  photosynthesis_penalty : ℚ
  respiration_increase : ℚ
  growth_penalty : ℚ
  death_rate_increase : ℚ
  buffer_reduction : ℚ
  deriving DecidableEq

structure DifficultyConfig where
  level : ℚ
  scaling : DifficultyScaling
  deriving DecidableEq

/-- `DifficultyConfig::new`. -/
def DifficultyConfig.new (level : ℚ) : EcosystemResult DifficultyConfig :=
  if 0 ≤ level ∧ level ≤ 1 then
    .ok
      { level
        scaling :=
          { photosynthesis_penalty := 0.7 * level
            respiration_increase := 2.0 * level
            growth_penalty := 0.7 * level
            death_rate_increase := 1.5 * level
            buffer_reduction := 0.8 * level } }
  else
    .error (.configurationError
      ("Difficulty level " ++ toString level ++ " must be between 0.0 and 1.0"))

/-- `impl Default for DifficultyConfig`: `Self::new(0.5).unwrap()`. -/
def DifficultyConfig.default : DifficultyConfig :=
  ((DifficultyConfig.new 0.5).toOption).getD
    { level := 0.5
      scaling :=
        { photosynthesis_penalty := 0.35, respiration_increase := 1
          growth_penalty := 0.35, death_rate_increase := 0.75
          buffer_reduction := 0.4 } }

/-- `SimulationParameters::apply_difficulty`. -/
def SimulationParameters.apply_difficulty (p : SimulationParameters)
    (difficulty : DifficultyConfig) : SimulationParameters :=
  let scaling := difficulty.scaling
  { p with
    photosynthesis :=
      { p.photosynthesis with
        base_rate := p.photosynthesis.base_rate * (1 - scaling.photosynthesis_penalty)
        co2_efficiency :=
          p.photosynthesis.co2_efficiency * (1 - scaling.photosynthesis_penalty * 0.5) }
    respiration :=
      { p.respiration with
        base_rate := p.respiration.base_rate * (1 + scaling.respiration_increase) }
    microbial :=
      { p.microbial with
        growth_rate := p.microbial.growth_rate * (1 - scaling.growth_penalty)
        death_rate := p.microbial.death_rate * (1 + scaling.death_rate_increase) }
    worm :=
      { p.worm with
        growth_rate := p.worm.growth_rate * (1 - scaling.growth_penalty)
        death_rate := p.worm.death_rate * (1 + scaling.death_rate_increase) }
    shrimp :=
      { p.shrimp with
        growth_rate := p.shrimp.growth_rate * (1 - scaling.growth_penalty)
        death_rate := p.shrimp.death_rate * (1 + scaling.death_rate_increase) }
    environmental :=
      { p.environmental with
        rock_buffer_rate := p.environmental.rock_buffer_rate * (1 - scaling.buffer_reduction)
        water_buffer_rate := p.environmental.water_buffer_rate * (1 - scaling.buffer_reduction)
        plant_nitrogen_uptake :=
          p.environmental.plant_nitrogen_uptake * (1 + scaling.growth_penalty)
        ph_acidification_rate :=
          p.environmental.ph_acidification_rate * (1 + scaling.death_rate_increase) } }

/-! ## Organism configuration (src/src/v2/config/organisms.rs) -/

structure MicrobeConfig where
  initial_count : ℕ
  deriving DecidableEq

structure WormConfig where
  initial_count : ℕ
  deriving DecidableEq

structure ShrimpConfig where
  initial_count : ℕ
  deriving DecidableEq

structure PlantConfig where
  initial_biomass : ℚ
  deriving DecidableEq

structure OrganismConfig where
  microbes : MicrobeConfig
  worms : WormConfig
  shrimp : ShrimpConfig
  plants : PlantConfig
  deriving DecidableEq

/-- `OrganismConfig::validate`. -/
def OrganismConfig.validate (c : OrganismConfig) : EcosystemResult Unit :=
  if c.microbes.initial_count = 0 then
    .error (.configurationError "Microbe count cannot be zero")
  else if c.microbes.initial_count > 100000 then
    .error (.configurationError
      ("Too many microbes: " ++ toString c.microbes.initial_count ++ " (max 100,000)"))
  else if c.worms.initial_count > 50 then
    .error (.configurationError
      ("Too many worms: " ++ toString c.worms.initial_count ++ " (max 50)"))
  else if c.shrimp.initial_count > 20 then
    .error (.configurationError
      ("Too many shrimp: " ++ toString c.shrimp.initial_count ++ " (max 20)"))
  else if c.plants.initial_biomass ≤ 0 then
    .error (.configurationError "Plant biomass must be positive")
  else if c.plants.initial_biomass > 100 then
    .error (.configurationError
      ("Too much initial plant biomass: " ++ toString c.plants.initial_biomass ++ " (max 100)"))
  else
    .ok ()

/-- `OrganismConfig::new`. -/
def OrganismConfig.new (microbe_count worm_count shrimp_count : ℕ)
    (plant_biomass : ℚ) : EcosystemResult OrganismConfig :=
  let config : OrganismConfig :=
    { microbes := { initial_count := microbe_count }
      worms := { initial_count := worm_count }
      shrimp := { initial_count := shrimp_count }
      plants := { initial_biomass := plant_biomass } }
  match config.validate with
  | .error e => .error e
  | .ok _ => .ok config

/-- `impl Default for OrganismConfig`. -/
def OrganismConfig.default : OrganismConfig where
  microbes := { initial_count := 1000 }
  worms := { initial_count := 5 }
  shrimp := { initial_count := 2 }
  plants := { initial_biomass := 1.0 }

/-! ## Environment configuration (src/src/v2/config/environment.rs) -/

inductive SoilType where
  | porous
  | nonPorous
  | balanced
  deriving DecidableEq

structure EnvironmentConfig where
  water_volume : ℚ
  rocks : ℕ
  window_proximity : ℕ
  initial_temperature : ℚ
  initial_humidity : ℚ
  soil_type : SoilType
  deriving DecidableEq

/-- `impl Default for EnvironmentConfig`. -/
def EnvironmentConfig.default : EnvironmentConfig where
  water_volume := 0.5
  rocks := 2
  window_proximity := 3
  initial_temperature := 22.0
  initial_humidity := 60.0
  soil_type := .balanced

/-! ## Full configuration (src/src/v2/config/mod.rs) -/

structure V2Config where
  organisms : OrganismConfig
  environment : EnvironmentConfig
  parameters : SimulationParameters
  difficulty : DifficultyConfig
  deriving DecidableEq

/-- `impl Default for V2Config` (also `V2Config::new`). -/
def V2Config.default : V2Config where
  organisms := OrganismConfig.default
  environment := EnvironmentConfig.default
  parameters := SimulationParameters.default
  difficulty := DifficultyConfig.default

/-! ## Plants (src/src/v2/organisms/plants.rs)
`E : ℚ → ℚ` abstracts `f32::exp`; it is threaded through every function that
(transitively) evaluates the temperature or pH efficiency curve. -/

def photosynthesis (state : EcosystemStateV2) (params : SimulationParameters)
    (dt : ℚ) : EcosystemResult EcosystemStateV2 := do
  let light_level := state.light_level
  let humidity_factor := humidity_efficiency state.humidity
  let co2_factor := min (state.air_co2 / 0.04) 2
  let photosynthesis_rate := params.photosynthesis.base_rate * state.plant_biomass
    * light_efficiency light_level * humidity_factor * co2_factor
  let oxygen_production := photosynthesis_rate * dt
  let co2_consumption := oxygen_production * params.photosynthesis.co2_efficiency
  -- GasOps::add for Oxygen, GasOps::subtract for CarbonDioxide
  let o2 ← liftV (Oxygen.new (state.air_o2 + oxygen_production))
  let co2 ← liftV (CarbonDioxide.new (max (state.air_co2 - co2_consumption) 0))
  return { state with air_o2 := o2, air_co2 := co2 }

def plant_respiration (state : EcosystemStateV2) (params : SimulationParameters)
    (dt : ℚ) : EcosystemResult EcosystemStateV2 := do
  let respiration_rate := params.respiration.base_rate * state.plant_biomass
  let oxygen_consumption := respiration_rate * dt
  let co2_production := oxygen_consumption * params.respiration.co2_production
  let o2 ← liftV (Oxygen.new (max (state.air_o2 - oxygen_consumption) 0))
  let co2 ← liftV (CarbonDioxide.new (state.air_co2 + co2_production))
  return { state with air_o2 := o2, air_co2 := co2 }

def plant_growth (state : EcosystemStateV2) (params : SimulationParameters)
    (dt : ℚ) : EcosystemResult EcosystemStateV2 := do
  let light_factor := light_efficiency state.light_level
  let nutrient_factor := nutrient_efficiency state.soil_nitrogen
  let humidity_factor := humidity_efficiency state.humidity
  let competition := competition_factor state.plant_biomass
  let growth_rate := params.photosynthesis.base_rate * 0.3 * state.plant_biomass
    * light_factor * nutrient_factor * humidity_factor * competition
  let biomass_increase := growth_rate * dt
  let b ← liftV (Biomass.new (state.plant_biomass + biomass_increase))
  return { state with plant_biomass := b }

def nitrogen_uptake (state : EcosystemStateV2) (params : SimulationParameters)
    (dt : ℚ) : EcosystemResult EcosystemStateV2 := do
  let uptake_rate := params.environmental.plant_nitrogen_uptake * state.plant_biomass
  let nitrogen_consumed := uptake_rate * dt
  let n ← liftV (Nitrogen.new (max (state.soil_nitrogen - nitrogen_consumed) 0))
  return { state with soil_nitrogen := n }

def update_plants (state : EcosystemStateV2) (params : SimulationParameters)
    (is_day : Bool) (dt : ℚ) : EcosystemResult EcosystemStateV2 :=
  if is_day then do
    let s1 ← photosynthesis state params dt
    let s2 ← plant_growth s1 params dt
    nitrogen_uptake s2 params dt
  else
    plant_respiration state params dt

/-! ## Microbes (src/src/v2/organisms/microbes.rs) -/

def nitrogen_fixation (state : EcosystemStateV2) (params : SimulationParameters)
    (dt : ℚ) : EcosystemResult EcosystemStateV2 := do
  let oxygen_factor := oxygen_efficiency state.air_o2
  let moisture_factor := moisture_efficiency state.soil_moisture
  let fixation_rate := params.microbial.nitrogen_fixation_rate * state.microbe_pop
    * oxygen_factor * moisture_factor
  let nitrogen_fixed := fixation_rate * dt
  let n ← liftV (Nitrogen.new (state.soil_nitrogen + nitrogen_fixed))
  let n2_consumed := nitrogen_fixed * 0.1
  let airn2 ← liftV (Nitrogen.new (max (state.air_n2 - n2_consumed) 0))
  return { state with soil_nitrogen := n, air_n2 := airn2 }

def microbe_population_dynamics (E : ℚ → ℚ) (state : EcosystemStateV2)
    (params : SimulationParameters) (dt : ℚ) : EcosystemResult EcosystemStateV2 := do
  let nutrient_factor := nutrient_efficiency state.soil_nitrogen
  let moisture_factor := moisture_efficiency state.soil_moisture
  let temperature_factor := temperature_efficiency E state.temperature
  let growth_rate := params.microbial.growth_rate * state.microbe_pop
    * nutrient_factor * moisture_factor * temperature_factor
  let ph_factor := ph_efficiency E state.soil_ph
  let oxygen_factor := oxygen_efficiency state.air_o2
  let death_rate := params.microbial.death_rate * state.microbe_pop
    * (1 - ph_factor) * (1 - oxygen_factor)
  let net_growth := (growth_rate - death_rate) * dt
  let new_population := max (state.microbe_pop + net_growth) 0
  let p ← liftV (Population.new new_population)
  return { state with microbe_pop := p }

def microbe_respiration (state : EcosystemStateV2) (params : SimulationParameters)
    (dt : ℚ) : EcosystemResult EcosystemStateV2 := do
  let respiration_rate := params.microbial.respiration_rate * state.microbe_pop
  let oxygen_consumption := respiration_rate * dt
  let co2_production := oxygen_consumption * params.microbial.respiration_co2_mult
  let o2 ← liftV (Oxygen.new (max (state.air_o2 - oxygen_consumption) 0))
  let co2 ← liftV (CarbonDioxide.new (state.air_co2 + co2_production))
  return { state with air_o2 := o2, air_co2 := co2 }

def update_microbes (E : ℚ → ℚ) (state : EcosystemStateV2)
    (params : SimulationParameters) (dt : ℚ) : EcosystemResult EcosystemStateV2 := do
  let s1 ← nitrogen_fixation state params dt
  let s2 ← microbe_population_dynamics E s1 params dt
  microbe_respiration s2 params dt

/-! ## Worms (src/src/v2/organisms/worms.rs) -/

def soil_aeration (state : EcosystemStateV2) (params : SimulationParameters)
    (dt : ℚ) : EcosystemResult EcosystemStateV2 := do
  let aeration_increase := params.worm.aeration_rate * state.worm_pop * dt
  let a ← liftV (Aeration.new (state.soil_aeration + aeration_increase))
  return { state with soil_aeration := a }

def decomposition (state : EcosystemStateV2) (params : SimulationParameters)
    (dt : ℚ) : EcosystemResult EcosystemStateV2 := do
  let decomposition_rate := params.worm.decomposition_rate * state.worm_pop
  let detritus_consumed := decomposition_rate * dt
  let d ← liftV (Detritus.new (max (state.detritus - detritus_consumed) 0))
  let nutrients_released := detritus_consumed * 0.3
  let n ← liftV (Nitrogen.new (state.soil_nitrogen + nutrients_released))
  return { state with detritus := d, soil_nitrogen := n }

def worm_population_dynamics (E : ℚ → ℚ) (state : EcosystemStateV2)
    (params : SimulationParameters) (dt : ℚ) : EcosystemResult EcosystemStateV2 := do
  let detritus_factor := detritus_availability state.detritus
  let moisture_factor := moisture_efficiency state.soil_moisture
  let temperature_factor := temperature_efficiency E state.temperature
  let growth_rate := params.worm.growth_rate * state.worm_pop
    * detritus_factor * moisture_factor * temperature_factor
  let tox := toxicity_factor (0 : ℚ)
  let death_rate := params.worm.death_rate * state.worm_pop * (1 + tox)
  let net_growth := (growth_rate - death_rate) * dt
  let new_population := max (state.worm_pop + net_growth) 0
  let p ← liftV (Population.new new_population)
  return { state with worm_pop := p }

def update_worms (E : ℚ → ℚ) (state : EcosystemStateV2)
    (params : SimulationParameters) (dt : ℚ) : EcosystemResult EcosystemStateV2 := do
  let s1 ← soil_aeration state params dt
  let s2 ← decomposition s1 params dt
  worm_population_dynamics E s2 params dt

/-! ## Shrimp (src/src/v2/organisms/shrimp.rs) -/

def detritus_consumption (state : EcosystemStateV2) (params : SimulationParameters)
    (dt : ℚ) : EcosystemResult EcosystemStateV2 := do
  let consumption_rate := params.shrimp.detritus_consumption_rate * state.shrimp_pop
  let detritus_consumed := consumption_rate * dt
  let d ← liftV (Detritus.new (max (state.detritus - detritus_consumed) 0))
  return { state with detritus := d }

def waste_production (state : EcosystemStateV2) (params : SimulationParameters)
    (dt : ℚ) : EcosystemResult EcosystemStateV2 := do
  let waste_rate := params.shrimp.waste_production_rate * state.shrimp_pop
  let waste_produced := waste_rate * dt
  let n ← liftV (Nitrogen.new (state.soil_nitrogen + waste_produced))
  return { state with soil_nitrogen := n }

def shrimp_population_dynamics (E : ℚ → ℚ) (state : EcosystemStateV2)
    (params : SimulationParameters) (dt : ℚ) : EcosystemResult EcosystemStateV2 := do
  let detritus_factor := detritus_availability state.detritus
  let water_oxygen_factor := water_oxygen_efficiency state.water_o2
  let temperature_factor := temperature_efficiency E state.temperature
  let growth_rate := params.shrimp.growth_rate * state.shrimp_pop
    * detritus_factor * water_oxygen_factor * temperature_factor
  let tox := toxicity_factor (0 : ℚ)
  let death_rate := params.shrimp.death_rate * state.shrimp_pop * (1 + tox)
  let net_growth := (growth_rate - death_rate) * dt
  let new_population := max (state.shrimp_pop + net_growth) 0
  let p ← liftV (Population.new new_population)
  return { state with shrimp_pop := p }

def update_shrimp (E : ℚ → ℚ) (state : EcosystemStateV2)
    (params : SimulationParameters) (dt : ℚ) : EcosystemResult EcosystemStateV2 := do
  let s1 ← detritus_consumption state params dt
  let s2 ← waste_production s1 params dt
  shrimp_population_dynamics E s2 params dt

/-! ## Orchestration (src/src/v2/organisms/mod.rs, src/src/v2/simulation_refactored.rs) -/

def update_all_organisms (E : ℚ → ℚ) (state : EcosystemStateV2)
    (params : SimulationParameters) (is_day : Bool) (dt : ℚ) :
    EcosystemResult EcosystemStateV2 := do
  let s1 ← update_plants state params is_day dt
  let s2 ← update_microbes E s1 params dt
  let s3 ← update_worms E s2 params dt
  update_shrimp E s3 params dt

/-- First block of `organisms::apply_environmental_penalties` (pH). -/
def ph_penalty_block (state : EcosystemStateV2) : EcosystemResult EcosystemStateV2 :=
  let ph_penalty := ph_penalty_factor state.soil_ph
  if ph_penalty > 0 then do
    let b ← liftV (Biomass.new (max (state.plant_biomass * (1 - 0.10 * ph_penalty)) 0))
    let m ← liftV (Population.new (max (state.microbe_pop * (1 - 0.15 * ph_penalty)) 0.01))
    let sh ← liftV (Population.new (max (state.shrimp_pop * (1 - 0.20 * ph_penalty)) 0.01))
    pure { state with plant_biomass := b, microbe_pop := m, shrimp_pop := sh }
  else pure state

/-- Second block of `organisms::apply_environmental_penalties` (air oxygen). -/
def oxygen_penalty_block (state : EcosystemStateV2) : EcosystemResult EcosystemStateV2 :=
  let oxygen_penalty := oxygen_penalty_factor state.air_o2
  if oxygen_penalty > 0 then do
    let b ← liftV (Biomass.new (max (state.plant_biomass * (1 - 0.10 * oxygen_penalty)) 0))
    let m ← liftV (Population.new (max (state.microbe_pop * (1 - 0.15 * oxygen_penalty)) 0.01))
    let w ← liftV (Population.new (max (state.worm_pop * (1 - 0.20 * oxygen_penalty)) 0.01))
    pure { state with plant_biomass := b, microbe_pop := m, worm_pop := w }
  else pure state

/-- Third block of `organisms::apply_environmental_penalties` (water oxygen). -/
def water_penalty_block (state : EcosystemStateV2) : EcosystemResult EcosystemStateV2 :=
  let water_oxygen_penalty := water_oxygen_penalty_factor state.water_o2
  if water_oxygen_penalty > 0 then do
    let sh ← liftV
      (Population.new (max (state.shrimp_pop * (1 - 0.20 * water_oxygen_penalty)) 0.01))
    pure { state with shrimp_pop := sh }
  else pure state

/-- `organisms::apply_environmental_penalties`: the three penalty blocks,
each reading the state left by the previous one (the Rust function mutates
`state` in place between the blocks). -/
def apply_environmental_penalties (state : EcosystemStateV2) :
    EcosystemResult EcosystemStateV2 := do
  let s1 ← ph_penalty_block state
  let s2 ← oxygen_penalty_block s1
  water_penalty_block s2

/-- `simulation_refactored::update_ph`. -/
def update_ph (state : EcosystemStateV2) (config : V2Config) (dt : ℚ) :
    EcosystemResult EcosystemStateV2 := do
  let acidification := config.parameters.environmental.ph_acidification_rate
    * state.microbe_pop
  let rock_buffering := config.parameters.environmental.rock_buffer_rate
    * (state.rocks : ℚ)
  let water_buffering := config.parameters.environmental.water_buffer_rate
    * state.water_liters
  let ph_change := (-acidification + rock_buffering + water_buffering) * dt
  let new_ph := min (max (state.soil_ph + ph_change) 0) 14
  let p ← liftV (Ph.new new_ph)
  return { state with soil_ph := p }

/-- `simulation_refactored::update_water_oxygen_exchange`. -/
def update_water_oxygen_exchange (state : EcosystemStateV2) (dt : ℚ) :
    EcosystemResult EcosystemStateV2 := do
  let exchange_rate := (0.01 : ℚ)
  let oxygen_gradient := state.air_o2 - state.water_o2
  let oxygen_transfer := exchange_rate * oxygen_gradient * dt
  let new_water_oxygen := max (state.water_o2 + oxygen_transfer) 0
  let w ← liftV (Oxygen.new new_water_oxygen)
  return { state with water_o2 := w }

def update_environmental_parameters (state : EcosystemStateV2) (config : V2Config)
    (dt : ℚ) : EcosystemResult EcosystemStateV2 := do
  let s1 ← update_ph state config dt
  update_water_oxygen_exchange s1 dt

/-- `EcosystemStateV2::clamp_values`. -/
def EcosystemStateV2.clamp_values (state : EcosystemStateV2) :
    EcosystemResult EcosystemStateV2 := do
  let total_air := state.air_o2 + state.air_co2
  let remaining_n2 := max (100 - total_air) 0
  let n ← liftV (Nitrogen.new remaining_n2)
  return { state with air_n2 := n }

/-- `simulation_refactored::update_ecosystem_v2` — one tick. -/
def update_ecosystem_v2 (E : ℚ → ℚ) (config : V2Config)
    (state : EcosystemStateV2) (is_day : Bool) : EcosystemResult EcosystemStateV2 := do
  let dt := (1.0 : ℚ)
  let s1 ← update_all_organisms E state config.parameters is_day dt
  let s2 ← update_environmental_parameters s1 config dt
  let s3 ← apply_environmental_penalties s2
  s3.clamp_values

/-- Iterated ticks with an arbitrary day/night schedule. -/
def tick_seq (E : ℚ → ℚ) (config : V2Config) :
    List Bool → EcosystemStateV2 → EcosystemResult EcosystemStateV2
  | [], s => .ok s
  | d :: ds, s => do
    let s' ← update_ecosystem_v2 E config s d
    tick_seq E config ds s'

/-! ## State construction (src/src/v2/state.rs) -/

/-- `EcosystemStateV2::new`. -/
def EcosystemStateV2.new (config : V2Config) : EcosystemResult EcosystemStateV2 := do
  let b ← liftV (Biomass.new config.organisms.plants.initial_biomass)
  let m ← liftV (Population.new (config.organisms.microbes.initial_count : ℚ))
  let w ← liftV (Population.new (config.organisms.worms.initial_count : ℚ))
  let sh ← liftV (Population.new (config.organisms.shrimp.initial_count : ℚ))
  let n ← liftV (Nitrogen.new 1.0)
  let ph ← liftV (Ph.new 7.0)
  let moist ← liftV (Moisture.new config.environment.water_volume)
  let aer ← liftV (Aeration.new 1.0)
  let det ← liftV (Detritus.new 0.5)
  let wo2 ← liftV (Oxygen.new 8.0)
  let an2 ← liftV (Nitrogen.new 78.0)
  let ao2 ← liftV (Oxygen.new 21.0)
  let aco2 ← liftV (CarbonDioxide.new 0.04)
  return {
      plant_biomass := b, microbe_pop := m, worm_pop := w, shrimp_pop := sh
      soil_nitrogen := n, soil_ph := ph
      soil_moisture := moist, soil_aeration := aer, detritus := det
      water_liters := config.environment.water_volume
      water_o2 := wo2, air_n2 := an2, air_o2 := ao2, air_co2 := aco2
      temperature := config.environment.initial_temperature
      humidity := config.environment.initial_humidity
      rocks := config.environment.rocks }

/-- The `i`-th draw of `rng.gen_range(lo..=hi)`, where `draws i ∈ [0,1]`
abstracts the output of the `StdRng` stream seeded by `seed_from_u64`. -/
def rangeDraw (draws : ℕ → ℚ) (i : ℕ) (lo hi : ℚ) : ℚ :=
  lo + (hi - lo) * draws i

/-- `EcosystemStateV2::new_with_seed`, with the seeded `StdRng` abstracted as
the draw stream `draws` (one entry per `gen_range` call, in program order). -/
def EcosystemStateV2.new_with_seed (config : V2Config) (draws : ℕ → ℚ) :
    EcosystemResult EcosystemStateV2 := do
  let b ← liftV (Biomass.new config.organisms.plants.initial_biomass)
  let m ← liftV (Population.new (rangeDraw draws 0 500 2000))
  let w ← liftV (Population.new (rangeDraw draws 1 1 10))
  let sh ← liftV (Population.new (rangeDraw draws 2 1 5))
  let n ← liftV (Nitrogen.new (rangeDraw draws 3 0.5 2))
  let ph ← liftV (Ph.new (rangeDraw draws 4 5.5 8.5))
  let moist ← liftV (Moisture.new (rangeDraw draws 5 0.2 config.environment.water_volume))
  let aer ← liftV (Aeration.new (rangeDraw draws 6 0.5 2))
  let det ← liftV (Detritus.new (rangeDraw draws 7 0.1 2))
  let wo2 ← liftV (Oxygen.new (rangeDraw draws 8 6 10))
  let an2 ← liftV (Nitrogen.new 78.0)
  let ao2 ← liftV (Oxygen.new 21.0)
  let aco2 ← liftV (CarbonDioxide.new 0.04)
  let temp ← liftV (Temperature.new (rangeDraw draws 9 18 28))
  let hum ← liftV (Humidity.new (rangeDraw draws 10 40 80))
  return {
      plant_biomass := b, microbe_pop := m, worm_pop := w, shrimp_pop := sh
      soil_nitrogen := n, soil_ph := ph
      soil_moisture := moist, soil_aeration := aer, detritus := det
      water_liters := config.environment.water_volume
      water_o2 := wo2, air_n2 := an2, air_o2 := ao2, air_co2 := aco2
      temperature := temp, humidity := hum
      rocks := config.environment.rocks }

/-- The per-tick state trajectory of one run: initial state from
`new_with_seed`, then one state per tick. -/
def tick_trace (E : ℚ → ℚ) (config : V2Config) :
    EcosystemStateV2 → List Bool → EcosystemResult (List EcosystemStateV2)
  | s, [] => .ok [s]
  | s, d :: ds => do
    let s' ← update_ecosystem_v2 E config s d
    let rest ← tick_trace E config s' ds
    .ok (s' :: rest)

def trajectory (E : ℚ → ℚ) (draws : ℕ → ℚ) (config : V2Config)
    (flags : List Bool) : EcosystemResult (List EcosystemStateV2) := do
  let s0 ← EcosystemStateV2.new_with_seed config draws
  tick_trace E config s0 flags

/-! ## Monte Carlo batch entry points
(src/src/montecarlo.rs and src/src/v2/montecarlo.rs) -/

/-- `MonteCarloConfig` (src/src/v2/montecarlo.rs). -/
structure MonteCarloConfig where
  num_runs : ℕ
  day_cap : ℕ
  difficulty_range : ℚ × ℚ
  randomize_environment : Bool
  randomize_organisms : Bool
  show_progress : Bool
  deriving DecidableEq

/-- Loop structure of `run_v1_montecarlo` (src/src/montecarlo.rs lines 20-22):
the run count and day cap are clamped before the `for i in 0..num_runs` loop,
which performs exactly one trial per index with the clamped day cap. -/
def run_v1_montecarlo {σ : Type} (runTrial : ℕ → ℕ → σ) (num_runs day_cap : ℕ) :
    List σ :=
  let num_runs := min num_runs 100000
  let day_cap := min day_cap 1000
  (List.range num_runs).map (fun i => runTrial i day_cap)

/-- Loop structure of `run_v2_montecarlo` (src/src/montecarlo.rs lines 111-119):
identical clamping, applied (twice) before the loop. -/
def run_v2_montecarlo {σ : Type} (runTrial : ℕ → ℕ → σ) (num_runs day_cap : ℕ) :
    List σ :=
  let num_runs := min num_runs 100000
  let day_cap := min day_cap 1000
  let num_runs := min num_runs 100000
  let day_cap := min day_cap 1000
  (List.range num_runs).map (fun i => runTrial i day_cap)

/-- Loop structure of `run_monte_carlo_v2` (src/src/v2/montecarlo.rs): the
`for run_id in 0..mc_config.num_runs` loop pushes one `SimulationResult` per
index; `mc_config.num_runs` and `mc_config.day_cap` are used as given, with no
clamping anywhere in the function. -/
def run_monte_carlo_v2 {σ : Type} (run_single_simulation : ℕ → MonteCarloConfig → σ)
    (mc_config : MonteCarloConfig) : List σ :=
  (List.range mc_config.num_runs).map (fun run_id => run_single_simulation run_id mc_config)

/-! ## Concrete data used by claims, witnesses and counterexamples -/

/-- The invariants the Rust type system gives every constructed
`EnvironmentConfig` (its fields are the validated newtypes `WaterVolume`,
`Temperature`, `Humidity`). -/
structure WellFormedConfig (config : V2Config) : Prop where
  water_volume_nonneg : 0 ≤ config.environment.water_volume
  temperature_mem : -50 ≤ config.environment.initial_temperature ∧
    config.environment.initial_temperature ≤ 60
  humidity_mem : 0 ≤ config.environment.initial_humidity ∧
    config.environment.initial_humidity ≤ 100

/-- Stand-in for `f32::exp` in concrete evaluations whose relevant
exponential calls are either multiplied by zero or evaluated at `0`
(where `exp 0 = 1`). -/
def expConst1 : ℚ → ℚ := fun _ => 1

/-- Stand-in for `f32::exp` in concrete evaluations that only need an
exponential value below `1/2` (e.g. `exp (-49/8) < 1/2`). -/
def expConst0 : ℚ → ℚ := fun _ => 0

/-- The state produced by `EcosystemStateV2::new(&V2Config::default())`. -/
def initState : EcosystemStateV2 where
  plant_biomass := 1
  microbe_pop := 1000
  worm_pop := 5
  shrimp_pop := 2
  soil_nitrogen := 1
  soil_ph := 7
  soil_moisture := 0.5
  soil_aeration := 1
  detritus := 0.5
  water_liters := 0.5
  water_o2 := 8
  air_n2 := 78
  air_o2 := 21
  air_co2 := 0.04
  temperature := 22
  humidity := 60
  rocks := 2

/-- The state after one day tick from `initState` under the default
configuration, with `expConst1` standing in for `f32::exp`. -/
def tickedState : EcosystemStateV2 where
  plant_biomass := 124779119 / 125000000
  microbe_pop := 25765453 / 26000
  worm_pop := 15929 / 3200
  shrimp_pop := 1673080561 / 853125000
  soil_nitrogen := 75574703 / 25000000
  soil_ph := 3001 / 500
  soil_moisture := 1 / 2
  soil_aeration := 21 / 20
  detritus := 43 / 100
  water_liters := 1 / 2
  water_o2 := 64963 / 8000
  air_n2 := 1974 / 25
  air_o2 := 1603 / 80
  air_co2 := 401 / 400
  temperature := 22
  humidity := 60
  rocks := 2

/-- Concrete valid state used for the C4 counterexample: soil pH exactly 6.0
at the start of the tick, soil moisture and detritus 0 (so every growth term
that involves the exponential curves is multiplied by zero), temperature 24
(so the only other exponential call is at 0), and enough air oxygen that no
oxygen penalty fires. -/
def phSixState : EcosystemStateV2 where
  plant_biomass := 1
  microbe_pop := 1000
  worm_pop := 5
  shrimp_pop := 2
  soil_nitrogen := 2
  soil_ph := 6
  soil_moisture := 0
  soil_aeration := 1
  detritus := 0
  water_liters := 0.5
  water_o2 := 8
  air_n2 := 78
  air_o2 := 21
  air_co2 := 0.04
  temperature := 24
  humidity := 60
  rocks := 2

/-- The state after one day tick from `phSixState` under the default
configuration.  (Every call of the exponential stand-in in this run is either
multiplied by zero or taken at argument `0`, so the same state is produced by
any function standing in for `f32::exp` that maps `0` to `1`.) -/
def phSixTicked : EcosystemStateV2 where
  plant_biomass := 3212946673 / 3250000000
  microbe_pop := 251027 / 260
  worm_pop := 199 / 40
  shrimp_pop := 12339791 / 6500000
  soil_nitrogen := 25287203 / 12500000
  soil_ph := 10009 / 2000
  soil_moisture := 0
  soil_aeration := 21 / 20
  detritus := 0
  water_liters := 1 / 2
  water_o2 := 20301 / 2500
  air_n2 := 1974 / 25
  air_o2 := 501 / 25
  air_co2 := 1
  temperature := 24
  humidity := 60
  rocks := 2

/-- The state produced by `apply_environmental_penalties` alone on
`phSixState` (pH penalty with pH exactly 6.0; no oxygen penalties). -/
def phSixPenalized : EcosystemStateV2 :=
  { phSixState with
    plant_biomass := 129 / 130
    microbe_pop := 12850 / 13
    shrimp_pop := 128 / 65 }

/-- Valid state on which the per-tick population dynamics of microbes, worms
and shrimp all fail with a `ValidationError` under `deathParams`: zero soil
moisture and zero detritus make every growth term vanish, pH 0 and zero air
oxygen maximise microbe death. -/
def failState : EcosystemStateV2 where
  plant_biomass := 1
  microbe_pop := 1000
  worm_pop := 5
  shrimp_pop := 2
  soil_nitrogen := 1
  soil_ph := 0
  soil_moisture := 0
  soil_aeration := 1
  detritus := 0
  water_liters := 0.5
  water_o2 := 8
  air_n2 := 78
  air_o2 := 0
  air_co2 := 0.04
  temperature := 24
  humidity := 60
  rocks := 2

/-- Parameters with large death rates.  `SimulationParameters::validate`
accepts them: it never checks death rates. -/
def deathParams : SimulationParameters :=
  { SimulationParameters.default with
    microbial := { SimulationParameters.default.microbial with death_rate := 4 }
    worm := { SimulationParameters.default.worm with death_rate := 2 }
    shrimp := { SimulationParameters.default.shrimp with death_rate := 2 } }

/-- Parameters with a negative rock buffer rate.
`SimulationParameters::validate` accepts them: it never checks buffer rates. -/
def negBufferParams : SimulationParameters :=
  { SimulationParameters.default with
    environmental :=
      { SimulationParameters.default.environmental with rock_buffer_rate := -1 } }

/-- `DifficultyConfig::new(0.0)`'s payload. -/
def difficultyZero : DifficultyConfig where
  level := 0
  scaling :=
    { photosynthesis_penalty := 0, respiration_increase := 0, growth_penalty := 0
      death_rate_increase := 0, buffer_reduction := 0 }

/-- `DifficultyConfig::new(1.0)`'s payload. -/
def difficultyOne : DifficultyConfig where
  level := 1
  scaling :=
    { photosynthesis_penalty := 0.7, respiration_increase := 2, growth_penalty := 0.7
      death_rate_increase := 1.5, buffer_reduction := 0.8 }

/-- A Monte Carlo batch request for 200,000 runs. -/
def mcBig : MonteCarloConfig where
  num_runs := 200000
  day_cap := 30
  difficulty_range := (0.3, 0.7)
  randomize_environment := true
  randomize_organisms := true
  show_progress := true

/-! ## Basic lemmas about the result monad and the validated constructors -/

theorem except_bind_ok {ε α β : Type} {m : Except ε α} {f : α → Except ε β} {b : β} :
    (m >>= f) = Except.ok b ↔ ∃ a, m = Except.ok a ∧ f a = Except.ok b := by
  cases m <;> simp [Bind.bind, Except.bind]

theorem except_pure_ok {ε α : Type} {a b : α} :
    (pure a : Except ε α) = Except.ok b ↔ a = b := by
  simp [pure, Except.pure]

theorem liftV_ok {α : Type} {r : Except ValidationError α} {a : α} :
    liftV r = Except.ok a ↔ r = Except.ok a := by
  cases r <;> simp [liftV, Except.mapError]

theorem nonnegNew_ok {name : String} {v w : ℚ} :
    nonnegNew name v = Except.ok w ↔ 0 ≤ v ∧ w = v := by
  unfold nonnegNew
  split
  · rename_i hlt
    constructor
    · intro h
      exact absurd h (by simp)
    · rintro ⟨h0, -⟩
      exact absurd h0 (not_le.2 hlt)
  · rename_i hge
    simp only [Except.ok.injEq]
    constructor
    · rintro rfl
      exact ⟨not_lt.1 hge, rfl⟩
    · rintro ⟨-, rfl⟩
      rfl

theorem population_new_ok {v w : ℚ} :
    Population.new v = Except.ok w ↔ 0 < v ∧ w = v := by
  unfold Population.new
  split
  · rename_i hle
    constructor
    · intro h
      exact absurd h (by simp)
    · rintro ⟨h0, -⟩
      exact absurd h0 (not_lt.2 hle)
  · rename_i hgt
    simp only [Except.ok.injEq]
    constructor
    · rintro rfl
      exact ⟨not_le.1 hgt, rfl⟩
    · rintro ⟨-, rfl⟩
      rfl

theorem ph_new_ok {v w : ℚ} :
    Ph.new v = Except.ok w ↔ (0 ≤ v ∧ v ≤ 14) ∧ w = v := by
  unfold Ph.new
  split
  · rename_i hmem
    simp only [Except.ok.injEq]
    constructor
    · rintro rfl
      exact ⟨hmem, rfl⟩
    · rintro ⟨-, rfl⟩
      rfl
  · rename_i hmem
    constructor
    · intro h
      exact absurd h (by simp)
    · rintro ⟨h0, -⟩
      exact absurd h0 hmem

theorem temperature_new_ok {v w : ℚ} :
    Temperature.new v = Except.ok w ↔ (-50 ≤ v ∧ v ≤ 60) ∧ w = v := by
  unfold Temperature.new
  split
  · rename_i hmem
    simp only [Except.ok.injEq]
    constructor
    · rintro rfl
      exact ⟨hmem, rfl⟩
    · rintro ⟨-, rfl⟩
      rfl
  · rename_i hmem
    constructor
    · intro h
      exact absurd h (by simp)
    · rintro ⟨h0, -⟩
      exact absurd h0 hmem

theorem humidity_new_ok {v w : ℚ} :
    Humidity.new v = Except.ok w ↔ (0 ≤ v ∧ v ≤ 100) ∧ w = v := by
  unfold Humidity.new
  split
  · rename_i hmem
    simp only [Except.ok.injEq]
    constructor
    · rintro rfl
      exact ⟨hmem, rfl⟩
    · rintro ⟨-, rfl⟩
      rfl
  · rename_i hmem
    constructor
    · intro h
      exact absurd h (by simp)
    · rintro ⟨h0, -⟩
      exact absurd h0 hmem

/-! ## Domain preservation of each update function (towards C1) -/

theorem photosynthesis_valid {s s' : EcosystemStateV2} {p : SimulationParameters}
    {dt : ℚ} (h : photosynthesis s p dt = .ok s') (hs : ValidState s) :
    ValidState s' := by
  simp only [photosynthesis, except_bind_ok, liftV_ok, Oxygen.new, CarbonDioxide.new,
    nonnegNew_ok, except_pure_ok] at h
  obtain ⟨o2, ⟨ho2, rfl⟩, co2, ⟨hco2, rfl⟩, rfl⟩ := h
  obtain ⟨h1, h2, h3, h4, h5, h6, h7, h8, h9, h10, h11, h12, _, _, h15, h16⟩ := hs
  exact ⟨h1, h2, h3, h4, h5, h6, h7, h8, h9, h10, h11, h12, ho2, hco2, h15, h16⟩

theorem plant_respiration_valid {s s' : EcosystemStateV2} {p : SimulationParameters}
    {dt : ℚ} (h : plant_respiration s p dt = .ok s') (hs : ValidState s) :
    ValidState s' := by
  simp only [plant_respiration, except_bind_ok, liftV_ok, Oxygen.new, CarbonDioxide.new,
    nonnegNew_ok, except_pure_ok] at h
  obtain ⟨o2, ⟨ho2, rfl⟩, co2, ⟨hco2, rfl⟩, rfl⟩ := h
  obtain ⟨h1, h2, h3, h4, h5, h6, h7, h8, h9, h10, h11, h12, _, _, h15, h16⟩ := hs
  exact ⟨h1, h2, h3, h4, h5, h6, h7, h8, h9, h10, h11, h12, ho2, hco2, h15, h16⟩

theorem plant_growth_valid {s s' : EcosystemStateV2} {p : SimulationParameters}
    {dt : ℚ} (h : plant_growth s p dt = .ok s') (hs : ValidState s) :
    ValidState s' := by
  simp only [plant_growth, except_bind_ok, liftV_ok, Biomass.new,
    nonnegNew_ok, except_pure_ok] at h
  obtain ⟨b, ⟨hb, rfl⟩, rfl⟩ := h
  obtain ⟨_, h2, h3, h4, h5, h6, h7, h8, h9, h10, h11, h12, h13, h14, h15, h16⟩ := hs
  exact ⟨hb, h2, h3, h4, h5, h6, h7, h8, h9, h10, h11, h12, h13, h14, h15, h16⟩

theorem nitrogen_uptake_valid {s s' : EcosystemStateV2} {p : SimulationParameters}
    {dt : ℚ} (h : nitrogen_uptake s p dt = .ok s') (hs : ValidState s) :
    ValidState s' := by
  simp only [nitrogen_uptake, except_bind_ok, liftV_ok, Nitrogen.new,
    nonnegNew_ok, except_pure_ok] at h
  obtain ⟨n, ⟨hn, rfl⟩, rfl⟩ := h
  obtain ⟨h1, h2, h3, h4, _, h6, h7, h8, h9, h10, h11, h12, h13, h14, h15, h16⟩ := hs
  exact ⟨h1, h2, h3, h4, hn, h6, h7, h8, h9, h10, h11, h12, h13, h14, h15, h16⟩

theorem update_plants_valid {s s' : EcosystemStateV2} {p : SimulationParameters}
    {is_day : Bool} {dt : ℚ} (h : update_plants s p is_day dt = .ok s')
    (hs : ValidState s) : ValidState s' := by
  unfold update_plants at h
  split at h
  · simp only [except_bind_ok] at h
    obtain ⟨s1, hph, s2, hg, hu⟩ := h
    exact nitrogen_uptake_valid hu (plant_growth_valid hg (photosynthesis_valid hph hs))
  · exact plant_respiration_valid h hs

theorem nitrogen_fixation_valid {s s' : EcosystemStateV2} {p : SimulationParameters}
    {dt : ℚ} (h : nitrogen_fixation s p dt = .ok s') (hs : ValidState s) :
    ValidState s' := by
  simp only [nitrogen_fixation, except_bind_ok, liftV_ok, Nitrogen.new,
    nonnegNew_ok, except_pure_ok] at h
  obtain ⟨n, ⟨hn, rfl⟩, n2, ⟨hn2, rfl⟩, rfl⟩ := h
  obtain ⟨h1, h2, h3, h4, _, h6, h7, h8, h9, h10, h11, _, h13, h14, h15, h16⟩ := hs
  exact ⟨h1, h2, h3, h4, hn, h6, h7, h8, h9, h10, h11, hn2, h13, h14, h15, h16⟩

theorem microbe_population_dynamics_valid {E : ℚ → ℚ} {s s' : EcosystemStateV2}
    {p : SimulationParameters} {dt : ℚ}
    (h : microbe_population_dynamics E s p dt = .ok s') (hs : ValidState s) :
    ValidState s' := by
  simp only [microbe_population_dynamics, except_bind_ok, liftV_ok, population_new_ok,
    except_pure_ok] at h
  obtain ⟨m, ⟨hm, rfl⟩, rfl⟩ := h
  obtain ⟨h1, _, h3, h4, h5, h6, h7, h8, h9, h10, h11, h12, h13, h14, h15, h16⟩ := hs
  exact ⟨h1, hm, h3, h4, h5, h6, h7, h8, h9, h10, h11, h12, h13, h14, h15, h16⟩

theorem microbe_respiration_valid {s s' : EcosystemStateV2} {p : SimulationParameters}
    {dt : ℚ} (h : microbe_respiration s p dt = .ok s') (hs : ValidState s) :
    ValidState s' := by
  simp only [microbe_respiration, except_bind_ok, liftV_ok, Oxygen.new, CarbonDioxide.new,
    nonnegNew_ok, except_pure_ok] at h
  obtain ⟨o2, ⟨ho2, rfl⟩, co2, ⟨hco2, rfl⟩, rfl⟩ := h
  obtain ⟨h1, h2, h3, h4, h5, h6, h7, h8, h9, h10, h11, h12, _, _, h15, h16⟩ := hs
  exact ⟨h1, h2, h3, h4, h5, h6, h7, h8, h9, h10, h11, h12, ho2, hco2, h15, h16⟩

theorem update_microbes_valid {E : ℚ → ℚ} {s s' : EcosystemStateV2}
    {p : SimulationParameters} {dt : ℚ} (h : update_microbes E s p dt = .ok s')
    (hs : ValidState s) : ValidState s' := by
  simp only [update_microbes, except_bind_ok] at h
  obtain ⟨s1, hf, s2, hd, hr⟩ := h
  exact microbe_respiration_valid hr
    (microbe_population_dynamics_valid hd (nitrogen_fixation_valid hf hs))

theorem soil_aeration_valid {s s' : EcosystemStateV2} {p : SimulationParameters}
    {dt : ℚ} (h : soil_aeration s p dt = .ok s') (hs : ValidState s) :
    ValidState s' := by
  simp only [soil_aeration, except_bind_ok, liftV_ok, Aeration.new,
    nonnegNew_ok, except_pure_ok] at h
  obtain ⟨a, ⟨ha, rfl⟩, rfl⟩ := h
  obtain ⟨h1, h2, h3, h4, h5, h6, h7, _, h9, h10, h11, h12, h13, h14, h15, h16⟩ := hs
  exact ⟨h1, h2, h3, h4, h5, h6, h7, ha, h9, h10, h11, h12, h13, h14, h15, h16⟩

theorem decomposition_valid {s s' : EcosystemStateV2} {p : SimulationParameters}
    {dt : ℚ} (h : decomposition s p dt = .ok s') (hs : ValidState s) :
    ValidState s' := by
  simp only [decomposition, except_bind_ok, liftV_ok, Detritus.new, Nitrogen.new,
    nonnegNew_ok, except_pure_ok] at h
  obtain ⟨d, ⟨hd, rfl⟩, n, ⟨hn, rfl⟩, rfl⟩ := h
  obtain ⟨h1, h2, h3, h4, _, h6, h7, h8, _, h10, h11, h12, h13, h14, h15, h16⟩ := hs
  exact ⟨h1, h2, h3, h4, hn, h6, h7, h8, hd, h10, h11, h12, h13, h14, h15, h16⟩

theorem worm_population_dynamics_valid {E : ℚ → ℚ} {s s' : EcosystemStateV2}
    {p : SimulationParameters} {dt : ℚ}
    (h : worm_population_dynamics E s p dt = .ok s') (hs : ValidState s) :
    ValidState s' := by
  simp only [worm_population_dynamics, except_bind_ok, liftV_ok, population_new_ok,
    except_pure_ok] at h
  obtain ⟨w, ⟨hw, rfl⟩, rfl⟩ := h
  obtain ⟨h1, h2, _, h4, h5, h6, h7, h8, h9, h10, h11, h12, h13, h14, h15, h16⟩ := hs
  exact ⟨h1, h2, hw, h4, h5, h6, h7, h8, h9, h10, h11, h12, h13, h14, h15, h16⟩

theorem update_worms_valid {E : ℚ → ℚ} {s s' : EcosystemStateV2}
    {p : SimulationParameters} {dt : ℚ} (h : update_worms E s p dt = .ok s')
    (hs : ValidState s) : ValidState s' := by
  simp only [update_worms, except_bind_ok] at h
  obtain ⟨s1, ha, s2, hd, hw⟩ := h
  exact worm_population_dynamics_valid hw
    (decomposition_valid hd (soil_aeration_valid ha hs))

theorem detritus_consumption_valid {s s' : EcosystemStateV2} {p : SimulationParameters}
    {dt : ℚ} (h : detritus_consumption s p dt = .ok s') (hs : ValidState s) :
    ValidState s' := by
  simp only [detritus_consumption, except_bind_ok, liftV_ok, Detritus.new,
    nonnegNew_ok, except_pure_ok] at h
  obtain ⟨d, ⟨hd, rfl⟩, rfl⟩ := h
  obtain ⟨h1, h2, h3, h4, h5, h6, h7, h8, _, h10, h11, h12, h13, h14, h15, h16⟩ := hs
  exact ⟨h1, h2, h3, h4, h5, h6, h7, h8, hd, h10, h11, h12, h13, h14, h15, h16⟩

theorem waste_production_valid {s s' : EcosystemStateV2} {p : SimulationParameters}
    {dt : ℚ} (h : waste_production s p dt = .ok s') (hs : ValidState s) :
    ValidState s' := by
  simp only [waste_production, except_bind_ok, liftV_ok, Nitrogen.new,
    nonnegNew_ok, except_pure_ok] at h
  obtain ⟨n, ⟨hn, rfl⟩, rfl⟩ := h
  obtain ⟨h1, h2, h3, h4, _, h6, h7, h8, h9, h10, h11, h12, h13, h14, h15, h16⟩ := hs
  exact ⟨h1, h2, h3, h4, hn, h6, h7, h8, h9, h10, h11, h12, h13, h14, h15, h16⟩

theorem shrimp_population_dynamics_valid {E : ℚ → ℚ} {s s' : EcosystemStateV2}
    {p : SimulationParameters} {dt : ℚ}
    (h : shrimp_population_dynamics E s p dt = .ok s') (hs : ValidState s) :
    ValidState s' := by
  simp only [shrimp_population_dynamics, except_bind_ok, liftV_ok, population_new_ok,
    except_pure_ok] at h
  obtain ⟨sh, ⟨hsh, rfl⟩, rfl⟩ := h
  obtain ⟨h1, h2, h3, _, h5, h6, h7, h8, h9, h10, h11, h12, h13, h14, h15, h16⟩ := hs
  exact ⟨h1, h2, h3, hsh, h5, h6, h7, h8, h9, h10, h11, h12, h13, h14, h15, h16⟩

theorem update_shrimp_valid {E : ℚ → ℚ} {s s' : EcosystemStateV2}
    {p : SimulationParameters} {dt : ℚ} (h : update_shrimp E s p dt = .ok s')
    (hs : ValidState s) : ValidState s' := by
  simp only [update_shrimp, except_bind_ok] at h
  obtain ⟨s1, hc, s2, hw, hd⟩ := h
  exact shrimp_population_dynamics_valid hd
    (waste_production_valid hw (detritus_consumption_valid hc hs))

theorem update_all_organisms_valid {E : ℚ → ℚ} {s s' : EcosystemStateV2}
    {p : SimulationParameters} {is_day : Bool} {dt : ℚ}
    (h : update_all_organisms E s p is_day dt = .ok s') (hs : ValidState s) :
    ValidState s' := by
  simp only [update_all_organisms, except_bind_ok] at h
  obtain ⟨s1, hp, s2, hm, s3, hw, hsh⟩ := h
  exact update_shrimp_valid hsh
    (update_worms_valid hw (update_microbes_valid hm (update_plants_valid hp hs)))

theorem ph_penalty_block_valid {s s' : EcosystemStateV2}
    (h : ph_penalty_block s = .ok s') (hs : ValidState s) : ValidState s' := by
  simp only [ph_penalty_block] at h
  split at h
  · simp only [except_bind_ok, liftV_ok, Biomass.new, nonnegNew_ok, population_new_ok,
      except_pure_ok] at h
    obtain ⟨b, ⟨hb, rfl⟩, m, ⟨hm, rfl⟩, sh, ⟨hsh, rfl⟩, rfl⟩ := h
    obtain ⟨_, _, h3, _, h5, h6, h7, h8, h9, h10, h11, h12, h13, h14, h15, h16⟩ := hs
    exact ⟨hb, hm, h3, hsh, h5, h6, h7, h8, h9, h10, h11, h12, h13, h14, h15, h16⟩
  · simp only [except_pure_ok] at h
    subst h
    exact hs

theorem oxygen_penalty_block_valid {s s' : EcosystemStateV2}
    (h : oxygen_penalty_block s = .ok s') (hs : ValidState s) : ValidState s' := by
  simp only [oxygen_penalty_block] at h
  split at h
  · simp only [except_bind_ok, liftV_ok, Biomass.new, nonnegNew_ok, population_new_ok,
      except_pure_ok] at h
    obtain ⟨b, ⟨hb, rfl⟩, m, ⟨hm, rfl⟩, w, ⟨hw, rfl⟩, rfl⟩ := h
    obtain ⟨_, _, _, h4, h5, h6, h7, h8, h9, h10, h11, h12, h13, h14, h15, h16⟩ := hs
    exact ⟨hb, hm, hw, h4, h5, h6, h7, h8, h9, h10, h11, h12, h13, h14, h15, h16⟩
  · simp only [except_pure_ok] at h
    subst h
    exact hs

theorem water_penalty_block_valid {s s' : EcosystemStateV2}
    (h : water_penalty_block s = .ok s') (hs : ValidState s) : ValidState s' := by
  simp only [water_penalty_block] at h
  split at h
  · simp only [except_bind_ok, liftV_ok, population_new_ok, except_pure_ok] at h
    obtain ⟨sh, ⟨hsh, rfl⟩, rfl⟩ := h
    obtain ⟨h1, h2, h3, _, h5, h6, h7, h8, h9, h10, h11, h12, h13, h14, h15, h16⟩ := hs
    exact ⟨h1, h2, h3, hsh, h5, h6, h7, h8, h9, h10, h11, h12, h13, h14, h15, h16⟩
  · simp only [except_pure_ok] at h
    subst h
    exact hs

theorem apply_environmental_penalties_valid {s s' : EcosystemStateV2}
    (h : apply_environmental_penalties s = .ok s') (hs : ValidState s) :
    ValidState s' := by
  simp only [apply_environmental_penalties, except_bind_ok] at h
  obtain ⟨s1, hp, s2, ho, hw⟩ := h
  exact water_penalty_block_valid hw
    (oxygen_penalty_block_valid ho (ph_penalty_block_valid hp hs))

theorem update_ph_valid {s s' : EcosystemStateV2} {config : V2Config} {dt : ℚ}
    (h : update_ph s config dt = .ok s') (hs : ValidState s) : ValidState s' := by
  simp only [update_ph, except_bind_ok, liftV_ok, ph_new_ok, except_pure_ok] at h
  obtain ⟨ph, ⟨hph, rfl⟩, rfl⟩ := h
  obtain ⟨h1, h2, h3, h4, h5, _, h7, h8, h9, h10, h11, h12, h13, h14, h15, h16⟩ := hs
  exact ⟨h1, h2, h3, h4, h5, hph, h7, h8, h9, h10, h11, h12, h13, h14, h15, h16⟩

theorem update_water_oxygen_exchange_valid {s s' : EcosystemStateV2} {dt : ℚ}
    (h : update_water_oxygen_exchange s dt = .ok s') (hs : ValidState s) :
    ValidState s' := by
  simp only [update_water_oxygen_exchange, except_bind_ok, liftV_ok, Oxygen.new,
    nonnegNew_ok, except_pure_ok] at h
  obtain ⟨w, ⟨hw, rfl⟩, rfl⟩ := h
  obtain ⟨h1, h2, h3, h4, h5, h6, h7, h8, h9, h10, _, h12, h13, h14, h15, h16⟩ := hs
  exact ⟨h1, h2, h3, h4, h5, h6, h7, h8, h9, h10, hw, h12, h13, h14, h15, h16⟩

theorem update_environmental_parameters_valid {s s' : EcosystemStateV2}
    {config : V2Config} {dt : ℚ}
    (h : update_environmental_parameters s config dt = .ok s') (hs : ValidState s) :
    ValidState s' := by
  simp only [update_environmental_parameters, except_bind_ok] at h
  obtain ⟨s1, hp, hw⟩ := h
  exact update_water_oxygen_exchange_valid hw (update_ph_valid hp hs)

theorem clamp_values_valid {s s' : EcosystemStateV2}
    (h : s.clamp_values = .ok s') (hs : ValidState s) : ValidState s' := by
  simp only [EcosystemStateV2.clamp_values, except_bind_ok, liftV_ok, Nitrogen.new,
    nonnegNew_ok, except_pure_ok] at h
  obtain ⟨n, ⟨hn, rfl⟩, rfl⟩ := h
  obtain ⟨h1, h2, h3, h4, h5, h6, h7, h8, h9, h10, h11, _, h13, h14, h15, h16⟩ := hs
  exact ⟨h1, h2, h3, h4, h5, h6, h7, h8, h9, h10, h11, hn, h13, h14, h15, h16⟩

theorem update_ecosystem_v2_valid {E : ℚ → ℚ} {s s' : EcosystemStateV2}
    {config : V2Config} {is_day : Bool}
    (h : update_ecosystem_v2 E config s is_day = .ok s') (hs : ValidState s) :
    ValidState s' := by
  simp only [update_ecosystem_v2, except_bind_ok] at h
  obtain ⟨s1, ho, s2, he, s3, hp, hc⟩ := h
  exact clamp_values_valid hc (apply_environmental_penalties_valid hp
    (update_environmental_parameters_valid he (update_all_organisms_valid ho hs)))

theorem tick_seq_valid {E : ℚ → ℚ} {config : V2Config} :
    ∀ {flags : List Bool} {s s' : EcosystemStateV2},
      tick_seq E config flags s = .ok s' → ValidState s → ValidState s'
  | [], s, s', h, hs => by
    simp only [tick_seq] at h
    cases h
    exact hs
  | d :: ds, s, s', h, hs => by
    simp only [tick_seq, except_bind_ok] at h
    obtain ⟨t, ht, hrest⟩ := h
    exact tick_seq_valid hrest (update_ecosystem_v2_valid ht hs)

theorem new_valid {config : V2Config} {s0 : EcosystemStateV2}
    (hconfig : WellFormedConfig config)
    (h0 : EcosystemStateV2.new config = .ok s0) : ValidState s0 := by
  simp only [EcosystemStateV2.new, except_bind_ok, liftV_ok, Biomass.new,
    population_new_ok, ph_new_ok, Oxygen.new, CarbonDioxide.new, Nitrogen.new,
    Moisture.new, Aeration.new, Detritus.new, nonnegNew_ok, except_pure_ok] at h0
  obtain ⟨b, ⟨hb, rfl⟩, m, ⟨hm, rfl⟩, w, ⟨hw, rfl⟩, sh, ⟨hsh, rfl⟩, n, ⟨hn, rfl⟩,
    ph, ⟨hph, rfl⟩, mo, ⟨hmo, rfl⟩, ae, ⟨hae, rfl⟩, de, ⟨hde, rfl⟩, wo, ⟨hwo, rfl⟩,
    an, ⟨han, rfl⟩, ao, ⟨hao, rfl⟩, ac, ⟨hac, rfl⟩, rfl⟩ := h0
  exact ⟨hb, hm, hw, hsh, hn, hph, hmo, hae, hde, hconfig.water_volume_nonneg,
    hwo, han, hao, hac, hconfig.temperature_mem, hconfig.humidity_mem⟩

/-! ## Claim theorems -/

/-- Claim C1: for every valid configuration and every number of ticks n ≥ 0,
every quantity held in the ecosystem state after n applications of
`update_ecosystem_v2` is within its declared domain — plant biomass, oxygen
values, CO2, nitrogens, moisture, aeration, detritus and water volume are
≥ 0, populations are > 0, pH is in [0,14], humidity in [0,100], and
temperature in the valid temperature range [-50,60] (`ValidState`). -/
theorem claim_C1 (E : ℚ → ℚ) (config : V2Config) (s0 s' : EcosystemStateV2)
    (flags : List Bool) (hconfig : WellFormedConfig config)
    (h0 : EcosystemStateV2.new config = .ok s0)
    (h : tick_seq E config flags s0 = .ok s') : ValidState s' :=
  tick_seq_valid h (new_valid hconfig h0)

theorem claim_C1_witness :
    WellFormedConfig V2Config.default ∧
    EcosystemStateV2.new V2Config.default = .ok initState ∧
    tick_seq expConst1 V2Config.default [true] initState = .ok tickedState ∧
    ValidState tickedState := by
  have hconfig : WellFormedConfig V2Config.default := by
    refine ⟨?_, ⟨?_, ?_⟩, ⟨?_, ?_⟩⟩ <;>
      norm_num [V2Config.default, EnvironmentConfig.default]
  have h0 : EcosystemStateV2.new V2Config.default = .ok initState := by
    norm_num [EcosystemStateV2.new, V2Config.default, OrganismConfig.default,
      EnvironmentConfig.default, liftV, Biomass.new, Population.new, Ph.new,
      Oxygen.new, CarbonDioxide.new, Nitrogen.new, Moisture.new, Aeration.new,
      Detritus.new, nonnegNew, Except.mapError, initState, Bind.bind, Except.bind,
      pure, Except.pure]
  have h1 : tick_seq expConst1 V2Config.default [true] initState = .ok tickedState := by
    norm_num [tick_seq, update_ecosystem_v2, update_all_organisms, update_plants,
      photosynthesis, plant_growth, nitrogen_uptake, plant_respiration,
      update_microbes, nitrogen_fixation, microbe_population_dynamics,
      microbe_respiration, update_worms, soil_aeration, decomposition,
      worm_population_dynamics, update_shrimp, detritus_consumption,
      waste_production, shrimp_population_dynamics,
      update_environmental_parameters, update_ph, update_water_oxygen_exchange,
      apply_environmental_penalties, ph_penalty_block, oxygen_penalty_block,
      water_penalty_block, EcosystemStateV2.clamp_values,
      EcosystemStateV2.light_level, expConst1,
      temperature_efficiency, humidity_efficiency, light_efficiency,
      nutrient_efficiency, competition_factor, moisture_efficiency, ph_efficiency,
      oxygen_efficiency, detritus_availability, toxicity_factor,
      water_oxygen_efficiency, ph_penalty_factor, oxygen_penalty_factor,
      water_oxygen_penalty_factor, V2Config.default, OrganismConfig.default,
      EnvironmentConfig.default, SimulationParameters.default,
      DifficultyConfig.default, liftV, Biomass.new, Population.new, Ph.new,
      Oxygen.new, CarbonDioxide.new, Nitrogen.new, Moisture.new, Aeration.new,
      Detritus.new, nonnegNew, Except.mapError, initState, tickedState,
      Bind.bind, Except.bind, pure, Except.pure, min_def, max_def]
  exact ⟨hconfig, h0, h1,
    claim_C1 expConst1 V2Config.default initState tickedState [true] hconfig h0 h1⟩

/-- Claim C2: for every ecosystem state, `is_collapsed` returns true if and
only if at least one of plant biomass, microbe population, worm population,
or shrimp population is ≤ 0.01 (both directions of the iff). -/
theorem claim_C2 (s : EcosystemStateV2) :
    s.is_collapsed = true ↔
      (s.plant_biomass ≤ 0.01 ∨ s.microbe_pop ≤ 0.01 ∨
        s.worm_pop ≤ 0.01 ∨ s.shrimp_pop ≤ 0.01) := by
  simp [EcosystemStateV2.is_collapsed, Biomass.is_collapsed,
    Population.is_collapsed, Bool.or_eq_true, decide_eq_true_eq, or_assoc]

theorem claim_C2_witness :
    initState.is_collapsed = true ↔
      (initState.plant_biomass ≤ 0.01 ∨ initState.microbe_pop ≤ 0.01 ∨
        initState.worm_pop ≤ 0.01 ∨ initState.shrimp_pop ≤ 0.01) :=
  claim_C2 initState

/-- Claim C6 (amended): the batch entry points in src/src/montecarlo.rs
(`run_v1_montecarlo`, `run_v2_montecarlo`) execute exactly
`min(num_runs, 100000)` runs, each with day cap `min(day_cap, 1000)`;
but the v2 harness `run_monte_carlo_v2` in src/src/v2/montecarlo.rs executes
exactly `num_runs` runs, with no clamping. -/
theorem claim_C6_amended :
    (∀ (σ : Type) (f : ℕ → ℕ → σ) (n d : ℕ),
      (run_v1_montecarlo f n d).length = min n 100000) ∧
    (∀ (σ : Type) (f : ℕ → ℕ → σ) (n d : ℕ) (x : σ),
      x ∈ run_v1_montecarlo f n d → ∃ i, i < min n 100000 ∧ x = f i (min d 1000)) ∧
    (∀ (σ : Type) (f : ℕ → ℕ → σ) (n d : ℕ),
      (run_v2_montecarlo f n d).length = min n 100000) ∧
    (∀ (σ : Type) (f : ℕ → ℕ → σ) (n d : ℕ) (x : σ),
      x ∈ run_v2_montecarlo f n d → ∃ i, i < min n 100000 ∧ x = f i (min d 1000)) ∧
    (∀ (σ : Type) (f : ℕ → MonteCarloConfig → σ) (mc : MonteCarloConfig),
      (run_monte_carlo_v2 f mc).length = mc.num_runs) := by
  refine ⟨?_, ?_, ?_, ?_, ?_⟩
  · intro σ f n d
    simp [run_v1_montecarlo]
  · intro σ f n d x hx
    simp only [run_v1_montecarlo, List.mem_map, List.mem_range] at hx
    obtain ⟨i, hi, rfl⟩ := hx
    exact ⟨i, hi, rfl⟩
  · intro σ f n d
    simp [run_v2_montecarlo]
  · intro σ f n d x hx
    simp only [run_v2_montecarlo, List.mem_map, List.mem_range] at hx
    obtain ⟨i, hi, rfl⟩ := hx
    exact ⟨i, by simpa using hi, by simp [min_assoc]⟩
  · intro σ f mc
    simp [run_monte_carlo_v2]

theorem claim_C6_witness :
    (run_v1_montecarlo (fun i d => (i, d)) 200000 5000).length = 100000 := by
  have h := claim_C6_amended.1 (ℕ × ℕ) (fun i d => (i, d)) 200000 5000
  simpa using h

/-- Claim C6 (counterexample): `run_monte_carlo_v2` with a 200,000-run
request executes 200,000 runs, not 100,000 — the claimed clamp to
`min(num_runs, 100000)` does not exist in src/src/v2/montecarlo.rs. -/
theorem claim_C6_counterexample :
    mcBig.num_runs = 200000 ∧
    (run_monte_carlo_v2 (fun _ _ => ()) mcBig).length = 200000 ∧
    (run_monte_carlo_v2 (fun _ _ => ()) mcBig).length ≠ min mcBig.num_runs 100000 := by
  refine ⟨rfl, ?_, ?_⟩
  · simp only [run_monte_carlo_v2, mcBig, List.length_map, List.length_range]
  · simp only [run_monte_carlo_v2, mcBig, List.length_map, List.length_range]
    norm_num

/-- Claim C8: two simulation runs constructed from the same seed (hence the
same `StdRng` draw stream) and the same configuration produce identical state
trajectories: the whole per-tick state list is equal. -/
theorem claim_C8 (E : ℚ → ℚ) (stdRngDraws : ℕ → ℕ → ℚ) (seed1 seed2 : ℕ)
    (config1 config2 : V2Config) (flags : List Bool)
    (hseed : seed1 = seed2) (hconfig : config1 = config2) :
    trajectory E (stdRngDraws seed1) config1 flags =
      trajectory E (stdRngDraws seed2) config2 flags := by
  rw [hseed, hconfig]

theorem claim_C8_witness :
    trajectory expConst1 ((fun _ _ => (1 : ℚ) / 2) 42) V2Config.default [true, false] =
      trajectory expConst1 ((fun _ _ => (1 : ℚ) / 2) 42) V2Config.default [true, false] :=
  claim_C8 expConst1 (fun _ _ => (1 : ℚ) / 2) 42 42 V2Config.default V2Config.default
    [true, false] rfl rfl

/-- Claim C9: constructing an organism configuration with `microbe_count = 0`
fails with a `ConfigurationError`, and (with the other fields inside their
own validation bounds) `OrganismConfig::new` accepts a microbe count if and
only if it is > 0 and ≤ 100,000. -/
theorem claim_C9 (m w sh : ℕ) (b : ℚ) (hw : w ≤ 50) (hsh : sh ≤ 20)
    (hb : 0 < b) (hb' : b ≤ 100) :
    ((∃ c, OrganismConfig.new m w sh b = .ok c) ↔ (0 < m ∧ m ≤ 100000)) ∧
    OrganismConfig.new 0 w sh b =
      .error (.configurationError "Microbe count cannot be zero") := by
  have h50 : ¬ (50 < w) := by omega
  have h20 : ¬ (20 < sh) := by omega
  have hble : ¬ (b ≤ 0) := not_le.2 hb
  have hb100 : ¬ (100 < b) := not_lt.2 hb'
  refine ⟨⟨?_, ?_⟩, ?_⟩
  · rintro ⟨c, hc⟩
    simp only [OrganismConfig.new, OrganismConfig.validate] at hc
    by_cases h0 : m = 0
    · rw [if_pos h0] at hc
      exact absurd hc (by simp)
    by_cases hbig : 100000 < m
    · rw [if_neg h0, if_pos hbig] at hc
      exact absurd hc (by simp)
    exact ⟨Nat.pos_of_ne_zero h0, by omega⟩
  · rintro ⟨hm0, hmle⟩
    refine ⟨{ microbes := { initial_count := m }, worms := { initial_count := w },
              shrimp := { initial_count := sh },
              plants := { initial_biomass := b } }, ?_⟩
    simp only [OrganismConfig.new, OrganismConfig.validate]
    rw [if_neg (by omega : ¬ m = 0), if_neg (by omega : ¬ 100000 < m),
      if_neg h50, if_neg h20, if_neg hble, if_neg hb100]
  · simp [OrganismConfig.new, OrganismConfig.validate]

theorem claim_C9_witness :
    ((∃ c, OrganismConfig.new 500 5 2 1 = .ok c) ↔ (0 < 500 ∧ 500 ≤ 100000)) ∧
    OrganismConfig.new 0 5 2 1 =
      .error (.configurationError "Microbe count cannot be zero") :=
  claim_C9 500 5 2 1 (by norm_num) (by norm_num) (by norm_num) (by norm_num)

theorem update_tick_air_n2 {E : ℚ → ℚ} {config : V2Config}
    {s s' : EcosystemStateV2} {is_day : Bool}
    (h : update_ecosystem_v2 E config s is_day = .ok s') :
    s'.air_n2 = max (100 - s'.air_o2 - s'.air_co2) 0 := by
  simp only [update_ecosystem_v2, except_bind_ok] at h
  obtain ⟨s1, h1, s2, h2, s3, h3, hc⟩ := h
  simp only [EcosystemStateV2.clamp_values, except_bind_ok, liftV_ok, Nitrogen.new,
    nonnegNew_ok, except_pure_ok] at hc
  obtain ⟨n, ⟨hn, rfl⟩, rfl⟩ := hc
  dsimp only
  rw [sub_sub]

/-- Claim C5: after the clamp/normalize step of every successful tick, air
nitrogen equals `max(100 − O2% − CO2%, 0)`; when the remainder was not
floored the sum O2% + CO2% + N2% is exactly 100, and the sum can be below
100 only if the remainder was floored at 0 (which in fact never makes it
smaller than 100). -/
theorem claim_C5 (E : ℚ → ℚ) (config : V2Config) (s s' : EcosystemStateV2)
    (is_day : Bool) (h : update_ecosystem_v2 E config s is_day = .ok s') :
    s'.air_n2 = max (100 - s'.air_o2 - s'.air_co2) 0 ∧
    (0 ≤ 100 - s'.air_o2 - s'.air_co2 →
      s'.air_o2 + s'.air_co2 + s'.air_n2 = 100) ∧
    (s'.air_o2 + s'.air_co2 + s'.air_n2 < 100 →
      100 - s'.air_o2 - s'.air_co2 < 0) := by
  have hshape := update_tick_air_n2 h
  refine ⟨hshape, ?_, ?_⟩
  · intro hrem
    rw [hshape, max_eq_left hrem]
    ring
  · intro hlt
    by_contra hge
    push_neg at hge
    rw [hshape, max_eq_left hge] at hlt
    linarith

theorem claim_C5_witness :
    update_ecosystem_v2 expConst1 V2Config.default initState true = .ok tickedState ∧
    tickedState.air_n2 = max (100 - tickedState.air_o2 - tickedState.air_co2) 0 := by
  have h : update_ecosystem_v2 expConst1 V2Config.default initState true =
      .ok tickedState := by
    norm_num [update_ecosystem_v2, update_all_organisms, update_plants,
      photosynthesis, plant_growth, nitrogen_uptake, plant_respiration,
      update_microbes, nitrogen_fixation, microbe_population_dynamics,
      microbe_respiration, update_worms, soil_aeration, decomposition,
      worm_population_dynamics, update_shrimp, detritus_consumption,
      waste_production, shrimp_population_dynamics,
      update_environmental_parameters, update_ph, update_water_oxygen_exchange,
      apply_environmental_penalties, ph_penalty_block, oxygen_penalty_block,
      water_penalty_block, EcosystemStateV2.clamp_values,
      EcosystemStateV2.light_level, expConst1,
      temperature_efficiency, humidity_efficiency, light_efficiency,
      nutrient_efficiency, competition_factor, moisture_efficiency, ph_efficiency,
      oxygen_efficiency, detritus_availability, toxicity_factor,
      water_oxygen_efficiency, ph_penalty_factor, oxygen_penalty_factor,
      water_oxygen_penalty_factor, V2Config.default, OrganismConfig.default,
      EnvironmentConfig.default, SimulationParameters.default,
      DifficultyConfig.default, liftV, Biomass.new, Population.new, Ph.new,
      Oxygen.new, CarbonDioxide.new, Nitrogen.new, Moisture.new, Aeration.new,
      Detritus.new, nonnegNew, Except.mapError, initState, tickedState,
      Bind.bind, Except.bind, pure, Except.pure, min_def, max_def]
  exact ⟨h, (claim_C5 expConst1 V2Config.default initState tickedState true h).1⟩

theorem difficulty_new_ok {d : ℚ} {c : DifficultyConfig} :
    DifficultyConfig.new d = .ok c ↔
      (0 ≤ d ∧ d ≤ 1) ∧
      c = { level := d
            scaling :=
              { photosynthesis_penalty := 0.7 * d, respiration_increase := 2.0 * d
                growth_penalty := 0.7 * d, death_rate_increase := 1.5 * d
                buffer_reduction := 0.8 * d } } := by
  unfold DifficultyConfig.new
  split
  · rename_i hmem
    simp only [Except.ok.injEq]
    constructor
    · rintro rfl
      exact ⟨hmem, rfl⟩
    · rintro ⟨-, rfl⟩
      rfl
  · rename_i hmem
    constructor
    · intro h
      exact absurd h (by simp)
    · rintro ⟨h0, -⟩
      exact absurd h0 hmem

/-- Claim C7 (amended): `apply_difficulty` is monotone in the difficulty
level for every base `SimulationParameters` whose rates are nonnegative (as
all shipped parameter sets are): for difficulty levels d1 ≤ d2 accepted by
`DifficultyConfig::new`, every growth, photosynthesis and buffering rate
after applying d2 is ≤ the one after applying d1, and every death,
respiration and acidification rate after applying d2 is ≥ the one after
applying d1. -/
theorem claim_C7_amended (p : SimulationParameters) (d1 d2 : ℚ)
    (c1 c2 : DifficultyConfig)
    (h1 : DifficultyConfig.new d1 = .ok c1)
    (h2 : DifficultyConfig.new d2 = .ok c2)
    (hd : d1 ≤ d2)
    (hpb : 0 ≤ p.photosynthesis.base_rate)
    (hpc : 0 ≤ p.photosynthesis.co2_efficiency)
    (hrb : 0 ≤ p.respiration.base_rate)
    (hmg : 0 ≤ p.microbial.growth_rate) (hmd : 0 ≤ p.microbial.death_rate)
    (hwg : 0 ≤ p.worm.growth_rate) (hwd : 0 ≤ p.worm.death_rate)
    (hsg : 0 ≤ p.shrimp.growth_rate) (hsd : 0 ≤ p.shrimp.death_rate)
    (hrock : 0 ≤ p.environmental.rock_buffer_rate)
    (hwater : 0 ≤ p.environmental.water_buffer_rate)
    (hacid : 0 ≤ p.environmental.ph_acidification_rate) :
    ((p.apply_difficulty c2).photosynthesis.base_rate ≤
      (p.apply_difficulty c1).photosynthesis.base_rate) ∧
    ((p.apply_difficulty c2).photosynthesis.co2_efficiency ≤
      (p.apply_difficulty c1).photosynthesis.co2_efficiency) ∧
    ((p.apply_difficulty c2).microbial.growth_rate ≤
      (p.apply_difficulty c1).microbial.growth_rate) ∧
    ((p.apply_difficulty c2).worm.growth_rate ≤
      (p.apply_difficulty c1).worm.growth_rate) ∧
    ((p.apply_difficulty c2).shrimp.growth_rate ≤
      (p.apply_difficulty c1).shrimp.growth_rate) ∧
    ((p.apply_difficulty c2).environmental.rock_buffer_rate ≤
      (p.apply_difficulty c1).environmental.rock_buffer_rate) ∧
    ((p.apply_difficulty c2).environmental.water_buffer_rate ≤
      (p.apply_difficulty c1).environmental.water_buffer_rate) ∧
    ((p.apply_difficulty c1).respiration.base_rate ≤
      (p.apply_difficulty c2).respiration.base_rate) ∧
    ((p.apply_difficulty c1).microbial.death_rate ≤
      (p.apply_difficulty c2).microbial.death_rate) ∧
    ((p.apply_difficulty c1).worm.death_rate ≤
      (p.apply_difficulty c2).worm.death_rate) ∧
    ((p.apply_difficulty c1).shrimp.death_rate ≤
      (p.apply_difficulty c2).shrimp.death_rate) ∧
    ((p.apply_difficulty c1).environmental.ph_acidification_rate ≤
      (p.apply_difficulty c2).environmental.ph_acidification_rate) := by
  obtain ⟨⟨hd1a, hd1b⟩, rfl⟩ := difficulty_new_ok.1 h1
  obtain ⟨⟨hd2a, hd2b⟩, rfl⟩ := difficulty_new_ok.1 h2
  simp only [SimulationParameters.apply_difficulty]
  refine ⟨?_, ?_, ?_, ?_, ?_, ?_, ?_, ?_, ?_, ?_, ?_, ?_⟩
  · exact mul_le_mul_of_nonneg_left (by linarith) hpb
  · exact mul_le_mul_of_nonneg_left (by linarith) hpc
  · exact mul_le_mul_of_nonneg_left (by linarith) hmg
  · exact mul_le_mul_of_nonneg_left (by linarith) hwg
  · exact mul_le_mul_of_nonneg_left (by linarith) hsg
  · exact mul_le_mul_of_nonneg_left (by linarith) hrock
  · exact mul_le_mul_of_nonneg_left (by linarith) hwater
  · exact mul_le_mul_of_nonneg_left (by linarith) hrb
  · exact mul_le_mul_of_nonneg_left (by linarith) hmd
  · exact mul_le_mul_of_nonneg_left (by linarith) hwd
  · exact mul_le_mul_of_nonneg_left (by linarith) hsd
  · exact mul_le_mul_of_nonneg_left (by linarith) hacid

/-- Claim C7 (counterexample): `apply_difficulty` is not monotone for an
arbitrary base `SimulationParameters`.  With a rock buffer rate of −1 (which
`SimulationParameters::validate` accepts — it never checks buffer rates),
the buffering rate after difficulty 1 is −0.2, which is strictly greater
than the −1 obtained after difficulty 0. -/
theorem claim_C7_counterexample :
    DifficultyConfig.new 0 = .ok difficultyZero ∧
    DifficultyConfig.new 1 = .ok difficultyOne ∧
    negBufferParams.validate = .ok () ∧
    ¬((negBufferParams.apply_difficulty difficultyOne).environmental.rock_buffer_rate ≤
      (negBufferParams.apply_difficulty difficultyZero).environmental.rock_buffer_rate) := by
  refine ⟨?_, ?_, ?_, ?_⟩
  · norm_num [DifficultyConfig.new, difficultyZero]
  · norm_num [DifficultyConfig.new, difficultyOne]
  · norm_num [negBufferParams, SimulationParameters.validate,
      SimulationParameters.default]
  · norm_num [negBufferParams, SimulationParameters.apply_difficulty,
      difficultyZero, difficultyOne, SimulationParameters.default]

theorem claim_C7_witness :
    (SimulationParameters.default.apply_difficulty difficultyOne).microbial.growth_rate ≤
      (SimulationParameters.default.apply_difficulty difficultyZero).microbial.growth_rate := by
  have h := claim_C7_amended SimulationParameters.default 0 1 difficultyZero difficultyOne
    (by norm_num [DifficultyConfig.new, difficultyZero])
    (by norm_num [DifficultyConfig.new, difficultyOne])
    (by norm_num)
    (by norm_num [SimulationParameters.default])
    (by norm_num [SimulationParameters.default])
    (by norm_num [SimulationParameters.default])
    (by norm_num [SimulationParameters.default])
    (by norm_num [SimulationParameters.default])
    (by norm_num [SimulationParameters.default])
    (by norm_num [SimulationParameters.default])
    (by norm_num [SimulationParameters.default])
    (by norm_num [SimulationParameters.default])
    (by norm_num [SimulationParameters.default])
    (by norm_num [SimulationParameters.default])
    (by norm_num [SimulationParameters.default])
  exact h.2.2.1

/-- Claim C10: there are valid (constructible) states and
`validate`-accepted parameters on which the per-tick organism updates return
a `ValidationError` instead of storing a clamped value: microbe, worm and
shrimp population dynamics floor the new population at 0.0 before re-wrapping
it, and `Population::new` rejects any value ≤ 0.0, so when death offsets or
exceeds the population within one step the update fails with
`ZeroOrNegativePopulation` rather than recording a collapsed population.
(The hypothesis on `E` is satisfied by the exponential:
`exp (−49/8) < 1/2`.) -/
theorem claim_C10 (E : ℚ → ℚ) (hE : E (-(49 / 8 : ℚ)) ≤ 1 / 2) :
    microbe_population_dynamics E failState deathParams 1 =
      .error (.validationError (.zeroOrNegativePopulation "population")) ∧
    worm_population_dynamics E failState deathParams 1 =
      .error (.validationError (.zeroOrNegativePopulation "population")) ∧
    shrimp_population_dynamics E failState deathParams 1 =
      .error (.validationError (.zeroOrNegativePopulation "population")) ∧
    ValidState failState ∧
    deathParams.validate = .ok () ∧
    Population.new 0 = .error (.zeroOrNegativePopulation "population") := by
  refine ⟨?_, ?_, ?_, ?_, ?_, ?_⟩
  · simp only [microbe_population_dynamics, failState, deathParams,
      SimulationParameters.default, nutrient_efficiency, moisture_efficiency,
      temperature_efficiency, ph_efficiency, oxygen_efficiency]
    norm_num
    have hmax : ((1000 : ℚ) + -(4000 * (1 - E (-(49 / 8))))) ⊔ 0 = 0 := by
      rw [max_eq_right]
      linarith [hE]
    rw [hmax]
    norm_num [Population.new, liftV, Except.mapError, Functor.map, Except.map]
  · norm_num [worm_population_dynamics, failState, deathParams,
      SimulationParameters.default, detritus_availability, moisture_efficiency,
      temperature_efficiency, toxicity_factor, Population.new, liftV,
      Except.mapError, Functor.map, Except.map, Bind.bind, Except.bind]
  · norm_num [shrimp_population_dynamics, failState, deathParams,
      SimulationParameters.default, detritus_availability,
      water_oxygen_efficiency, temperature_efficiency, toxicity_factor,
      Population.new, liftV, Except.mapError, Functor.map, Except.map,
      Bind.bind, Except.bind]
  · refine ⟨?_, ?_, ?_, ?_, ?_, ⟨?_, ?_⟩, ?_, ?_, ?_, ?_, ?_, ?_, ?_, ?_,
      ⟨?_, ?_⟩, ⟨?_, ?_⟩⟩ <;> norm_num [failState]
  · norm_num [deathParams, SimulationParameters.validate,
      SimulationParameters.default]
  · norm_num [Population.new]

theorem claim_C10_witness :
    expConst0 (-(49 / 8 : ℚ)) ≤ 1 / 2 ∧
    microbe_population_dynamics expConst0 failState deathParams 1 =
      .error (.validationError (.zeroOrNegativePopulation "population")) := by
  have hE : expConst0 (-(49 / 8 : ℚ)) ≤ 1 / 2 := by norm_num [expConst0]
  exact ⟨hE, (claim_C10 expConst0 hE).1⟩

theorem biomass_new_max_ok (x : ℚ) : Biomass.new (max x 0) = .ok (max x 0) := by
  unfold Biomass.new nonnegNew
  rw [if_neg (not_lt.2 (le_max_right x 0))]

theorem population_new_max_ok {x c : ℚ} (hc : 0 < c) :
    Population.new (max x c) = .ok (max x c) := by
  unfold Population.new
  rw [if_neg (not_le.2 (lt_of_lt_of_le hc (le_max_right x c)))]

/-- The one-tick run from `phSixState` does not depend on the function
standing in for `f32::exp` at all: every exponential factor in it is
multiplied by zero.  (So the counterexample below, evaluated with
`expConst1`, reproduces exactly what the Rust code computes with the real
`exp`.) -/
theorem phSix_tick_exp_invariant (E : ℚ → ℚ) :
    tick_seq E V2Config.default [true] phSixState =
      tick_seq expConst1 V2Config.default [true] phSixState := by
  norm_num [tick_seq, update_ecosystem_v2, update_all_organisms, update_plants,
    photosynthesis, plant_growth, nitrogen_uptake, plant_respiration,
    update_microbes, nitrogen_fixation, microbe_population_dynamics,
    microbe_respiration, update_worms, soil_aeration, decomposition,
    worm_population_dynamics, update_shrimp, detritus_consumption,
    waste_production, shrimp_population_dynamics,
    update_environmental_parameters, update_ph, update_water_oxygen_exchange,
    apply_environmental_penalties, ph_penalty_block, oxygen_penalty_block,
    water_penalty_block, EcosystemStateV2.clamp_values,
    EcosystemStateV2.light_level, expConst1,
    temperature_efficiency, humidity_efficiency, light_efficiency,
    nutrient_efficiency, competition_factor, moisture_efficiency, ph_efficiency,
    oxygen_efficiency, detritus_availability, toxicity_factor,
    water_oxygen_efficiency, ph_penalty_factor, oxygen_penalty_factor,
    water_oxygen_penalty_factor, V2Config.default, OrganismConfig.default,
    EnvironmentConfig.default, SimulationParameters.default,
    DifficultyConfig.default, liftV, Biomass.new, Population.new, Ph.new,
    Oxygen.new, CarbonDioxide.new, Nitrogen.new, Moisture.new, Aeration.new,
    Detritus.new, nonnegNew, Except.mapError, phSixState,
    Bind.bind, Except.bind, pure, Except.pure, min_def, max_def]

/-- Claim C4 (counterexample): starting a tick with soil pH exactly 6.0 does
not leave plant biomass multiplied by the documented factor
`1 − 0.10·(6.5−6)/6.5`: in a full tick the plant grows first and the pH is
re-buffered before the penalty is applied, so the factor acts on the
post-growth biomass at the post-coupling pH.  Concretely, one day tick from
`phSixState` (pH 6.0) under the default configuration yields biomass
3212946673/3250000000 ≈ 0.9886, while the claimed value is
1 × 129/130 ≈ 0.9923. -/
theorem claim_C4_counterexample :
    phSixState.soil_ph = 6 ∧
    tick_seq expConst1 V2Config.default [true] phSixState = .ok phSixTicked ∧
    phSixTicked.plant_biomass ≠
      phSixState.plant_biomass * (1 - 0.10 * ((6.5 - 6.0) / 6.5)) := by
  refine ⟨rfl, ?_, ?_⟩
  · norm_num [tick_seq, update_ecosystem_v2, update_all_organisms, update_plants,
      photosynthesis, plant_growth, nitrogen_uptake, plant_respiration,
      update_microbes, nitrogen_fixation, microbe_population_dynamics,
      microbe_respiration, update_worms, soil_aeration, decomposition,
      worm_population_dynamics, update_shrimp, detritus_consumption,
      waste_production, shrimp_population_dynamics,
      update_environmental_parameters, update_ph, update_water_oxygen_exchange,
      apply_environmental_penalties, ph_penalty_block, oxygen_penalty_block,
      water_penalty_block, EcosystemStateV2.clamp_values,
      EcosystemStateV2.light_level, expConst1,
      temperature_efficiency, humidity_efficiency, light_efficiency,
      nutrient_efficiency, competition_factor, moisture_efficiency, ph_efficiency,
      oxygen_efficiency, detritus_availability, toxicity_factor,
      water_oxygen_efficiency, ph_penalty_factor, oxygen_penalty_factor,
      water_oxygen_penalty_factor, V2Config.default, OrganismConfig.default,
      EnvironmentConfig.default, SimulationParameters.default,
      DifficultyConfig.default, liftV, Biomass.new, Population.new, Ph.new,
      Oxygen.new, CarbonDioxide.new, Nitrogen.new, Moisture.new, Aeration.new,
      Detritus.new, nonnegNew, Except.mapError, phSixState, phSixTicked,
      Bind.bind, Except.bind, pure, Except.pure, min_def, max_def]
  · norm_num [phSixTicked, phSixState]

/-- Claim C4 (amended): the penalty stage itself applies exactly the
documented factor — if the soil pH is 6.0 when `apply_environmental_penalties`
runs (i.e. after organism updates and pH buffering) and the air oxygen
penalty does not fire, then plant biomass is multiplied by exactly
`1 − 0.10·(6.5−6)/6.5`.   Over a full tick the factor therefore acts on the
post-growth biomass at the post-coupling pH, not on the pre-tick biomass at
the pre-tick pH. -/
theorem claim_C4_amended (s s' : EcosystemStateV2)
    (hph : s.soil_ph = 6) (hbio : 0 ≤ s.plant_biomass) (ho2 : 5 ≤ s.air_o2)
    (h : apply_environmental_penalties s = .ok s') :
    s'.plant_biomass = s.plant_biomass * (1 - 0.10 * ((6.5 - 6) / 6.5)) := by
  simp only [apply_environmental_penalties, except_bind_ok] at h
  obtain ⟨s1, h1, s2, h2, h3⟩ := h
  simp only [ph_penalty_block, hph] at h1
  norm_num [ph_penalty_factor, biomass_new_max_ok, population_new_max_ok,
    liftV, Except.mapError, Bind.bind, Except.bind, pure, Except.pure] at h1
  subst h1
  have ho2' : ¬ (s.air_o2 < 5) := not_lt.2 ho2
  norm_num [oxygen_penalty_block, oxygen_penalty_factor, ho2', except_pure_ok] at h2
  subst h2
  simp only [water_penalty_block] at h3
  split at h3
  · norm_num [population_new_max_ok, liftV, Except.mapError, Bind.bind,
      Except.bind, pure, Except.pure] at h3
    subst h3
    dsimp only
    rw [max_eq_left (mul_nonneg hbio (by norm_num))]
    norm_num
  · simp only [except_pure_ok] at h3
    subst h3
    dsimp only
    rw [max_eq_left (mul_nonneg hbio (by norm_num))]
    norm_num

theorem claim_C4_witness :
    phSixState.soil_ph = 6 ∧
    apply_environmental_penalties phSixState = .ok phSixPenalized ∧
    phSixPenalized.plant_biomass =
      phSixState.plant_biomass * (1 - 0.10 * ((6.5 - 6) / 6.5)) := by
  have h : apply_environmental_penalties phSixState = .ok phSixPenalized := by
    norm_num [apply_environmental_penalties, ph_penalty_block,
      oxygen_penalty_block, water_penalty_block, ph_penalty_factor,
      oxygen_penalty_factor, water_oxygen_penalty_factor, liftV, Biomass.new,
      Population.new, nonnegNew, Except.mapError, phSixState, phSixPenalized,
      Bind.bind, Except.bind, pure, Except.pure, min_def, max_def]
  exact ⟨rfl, h,
    claim_C4_amended phSixState phSixPenalized rfl (by norm_num [phSixState])
      (by norm_num [phSixState]) h⟩

theorem satCurve_monotone (c : ℝ) (hc : 0 < c) :
    Monotone (fun a : ℝ => min (a / c) 1) := by
  intro a b h
  exact min_le_min (by gcongr) le_rfl

theorem satCurve_mem (c : ℝ) (hc : 0 < c) {a : ℝ} (ha : 0 ≤ a) :
    0 ≤ min (a / c) 1 ∧ min (a / c) 1 ≤ 1 :=
  ⟨le_min (div_nonneg ha hc.le) zero_le_one, min_le_right _ _⟩

/-- Claim C3: each environmental response function equals its documented
closed form exactly; each saturating curve is monotonic and bounded to [0,1]
on its domain (with competition antitone in biomass); toxicity is the
constant 0; and the temperature and pH curves (instantiated at the real
exponential) are bell-shaped: values in (0,1], strictly increasing up to the
optimum (24 °C resp. pH 7), strictly decreasing beyond it, with value 1 at
the optimum. -/
theorem claim_C3 :
    ((∀ l : ℝ, light_efficiency l = min (l / 6) 1) ∧
      Monotone (light_efficiency : ℝ → ℝ) ∧
      (∀ l : ℝ, 0 ≤ l → 0 ≤ light_efficiency l ∧ light_efficiency l ≤ 1)) ∧
    ((∀ h : ℝ, humidity_efficiency h = min (h / 100) 1) ∧
      Monotone (humidity_efficiency : ℝ → ℝ) ∧
      (∀ h : ℝ, 0 ≤ h → 0 ≤ humidity_efficiency h ∧ humidity_efficiency h ≤ 1)) ∧
    ((∀ t : ℝ, temperature_efficiency Real.exp t = Real.exp (-(t - 24) ^ 2 / 32)) ∧
      (∀ t : ℝ, 0 < temperature_efficiency Real.exp t ∧
        temperature_efficiency Real.exp t ≤ 1) ∧
      (∀ a b : ℝ, a < b → b ≤ 24 →
        temperature_efficiency Real.exp a < temperature_efficiency Real.exp b) ∧
      (∀ a b : ℝ, 24 ≤ a → a < b →
        temperature_efficiency Real.exp b < temperature_efficiency Real.exp a) ∧
      temperature_efficiency Real.exp (24 : ℝ) = 1) ∧
    ((∀ n : ℝ, nutrient_efficiency n = min (n / 2) 1) ∧
      Monotone (nutrient_efficiency : ℝ → ℝ) ∧
      (∀ n : ℝ, 0 ≤ n → 0 ≤ nutrient_efficiency n ∧ nutrient_efficiency n ≤ 1)) ∧
    ((∀ b : ℝ, competition_factor b = max (1 - b / 100) 0) ∧
      Antitone (competition_factor : ℝ → ℝ) ∧
      (∀ b : ℝ, 0 ≤ b → 0 ≤ competition_factor b ∧ competition_factor b ≤ 1)) ∧
    ((∀ w : ℝ, moisture_efficiency w = min (w / 2) 1) ∧
      Monotone (moisture_efficiency : ℝ → ℝ) ∧
      (∀ w : ℝ, 0 ≤ w → 0 ≤ moisture_efficiency w ∧ moisture_efficiency w ≤ 1)) ∧
    ((∀ p : ℝ, ph_efficiency Real.exp p = Real.exp (-(p - 7) ^ 2 / 8)) ∧
      (∀ p : ℝ, 0 < ph_efficiency Real.exp p ∧ ph_efficiency Real.exp p ≤ 1) ∧
      (∀ a b : ℝ, a < b → b ≤ 7 →
        ph_efficiency Real.exp a < ph_efficiency Real.exp b) ∧
      (∀ a b : ℝ, 7 ≤ a → a < b →
        ph_efficiency Real.exp b < ph_efficiency Real.exp a) ∧
      ph_efficiency Real.exp (7 : ℝ) = 1) ∧
    ((∀ o : ℝ, oxygen_efficiency o = min (o / 21) 1) ∧
      Monotone (oxygen_efficiency : ℝ → ℝ) ∧
      (∀ o : ℝ, 0 ≤ o → 0 ≤ oxygen_efficiency o ∧ oxygen_efficiency o ≤ 1)) ∧
    ((∀ d : ℝ, detritus_availability d = min (d / 2) 1) ∧
      Monotone (detritus_availability : ℝ → ℝ) ∧
      (∀ d : ℝ, 0 ≤ d →
        0 ≤ detritus_availability d ∧ detritus_availability d ≤ 1)) ∧
    (∀ x : ℝ, toxicity_factor x = 0) ∧
    ((∀ o : ℝ, water_oxygen_efficiency o = min (o / 21) 1) ∧
      Monotone (water_oxygen_efficiency : ℝ → ℝ) ∧
      (∀ o : ℝ, 0 ≤ o →
        0 ≤ water_oxygen_efficiency o ∧ water_oxygen_efficiency o ≤ 1)) := by
  have hexp_mem : ∀ x : ℝ, x ≤ 0 → 0 < Real.exp x ∧ Real.exp x ≤ 1 := by
    intro x hx
    exact ⟨Real.exp_pos x, by
      calc Real.exp x ≤ Real.exp 0 := Real.exp_le_exp.2 hx
        _ = 1 := Real.exp_zero⟩
  refine ⟨⟨fun l => rfl, ?_, ?_⟩, ⟨fun h => rfl, ?_, ?_⟩,
    ⟨fun t => rfl, ?_, ?_, ?_, ?_⟩, ⟨fun n => rfl, ?_, ?_⟩,
    ⟨fun b => rfl, ?_, ?_⟩, ⟨fun w => rfl, ?_, ?_⟩,
    ⟨fun p => rfl, ?_, ?_, ?_, ?_⟩, ⟨fun o => rfl, ?_, ?_⟩,
    ⟨fun d => rfl, ?_, ?_⟩, fun x => rfl, ⟨fun o => rfl, ?_, ?_⟩⟩
  · exact satCurve_monotone 6 (by norm_num)
  · exact fun l hl => satCurve_mem 6 (by norm_num) hl
  · exact satCurve_monotone 100 (by norm_num)
  · exact fun h hh => satCurve_mem 100 (by norm_num) hh
  · intro t
    exact hexp_mem _ (by
      rw [neg_div]
      exact neg_nonpos.2 (by positivity))
  · intro a b hab hb24
    apply Real.exp_lt_exp.2
    have hq : (b - 24) ^ 2 < (a - 24) ^ 2 := by
      nlinarith [mul_pos (show (0 : ℝ) < b - a by linarith)
        (show (0 : ℝ) < 48 - a - b by linarith)]
    linarith
  · intro a b h24a hab
    apply Real.exp_lt_exp.2
    have hq : (a - 24) ^ 2 < (b - 24) ^ 2 := by
      nlinarith [mul_pos (show (0 : ℝ) < b - a by linarith)
        (show (0 : ℝ) < a + b - 48 by linarith)]
    linarith
  · norm_num [temperature_efficiency, Real.exp_zero]
  · exact satCurve_monotone 2 (by norm_num)
  · exact fun n hn => satCurve_mem 2 (by norm_num) hn
  · intro a b h
    refine max_le_max ?_ le_rfl
    have : a / 100 ≤ b / 100 := by linarith
    linarith
  · intro b hb
    refine ⟨le_max_right _ _, max_le ?_ zero_le_one⟩
    have : 0 ≤ b / 100 := by positivity
    linarith
  · exact satCurve_monotone 2 (by norm_num)
  · exact fun w hw => satCurve_mem 2 (by norm_num) hw
  · intro p
    exact hexp_mem _ (by
      rw [neg_div]
      exact neg_nonpos.2 (by positivity))
  · intro a b hab hb7
    apply Real.exp_lt_exp.2
    have hq : (b - 7) ^ 2 < (a - 7) ^ 2 := by
      nlinarith [mul_pos (show (0 : ℝ) < b - a by linarith)
        (show (0 : ℝ) < 14 - a - b by linarith)]
    linarith
  · intro a b h7a hab
    apply Real.exp_lt_exp.2
    have hq : (a - 7) ^ 2 < (b - 7) ^ 2 := by
      nlinarith [mul_pos (show (0 : ℝ) < b - a by linarith)
        (show (0 : ℝ) < a + b - 14 by linarith)]
    linarith
  · norm_num [ph_efficiency, Real.exp_zero]
  · exact satCurve_monotone 21 (by norm_num)
  · exact fun o ho => satCurve_mem 21 (by norm_num) ho
  · exact satCurve_monotone 2 (by norm_num)
  · exact fun d hd => satCurve_mem 2 (by norm_num) hd
  · exact satCurve_monotone 21 (by norm_num)
  · exact fun o ho => satCurve_mem 21 (by norm_num) ho

theorem claim_C3_witness :
    light_efficiency (3 : ℝ) ≤ light_efficiency 6 ∧
    (0 ≤ light_efficiency (3 : ℝ) ∧ light_efficiency (3 : ℝ) ≤ 1) ∧
    temperature_efficiency Real.exp (20 : ℝ) < temperature_efficiency Real.exp 24 ∧
    (0 < ph_efficiency Real.exp (5 : ℝ) ∧ ph_efficiency Real.exp (5 : ℝ) ≤ 1) := by
  obtain ⟨⟨-, lmono, lmem⟩, -, ⟨-, -, tinc, -, -⟩, -, -, -, ⟨-, pmem, -⟩, -⟩ :=
    claim_C3
  exact ⟨lmono (by norm_num), lmem 3 (by norm_num),
    tinc 20 24 (by norm_num) le_rfl, pmem 5⟩

end EcosystemV2
